import Mathlib

/-!
BEAS rule-engine console: paginated data table and HTTP error interceptor.

A shallow embedding of

* `src/components/DataTable/index.js` (`DataTableWithPagination`): the component state,
  its event handlers and the `useEffect` that re-fetches on page / page-size changes;
* `src/api/api.js`: the request interceptor, the response interceptor's error branch and
  `getData`;
* `src/App.js`: the callback registered as the global error handler;
* `src/components/GenericDialog/index.js`: the dialog state, `showDialog`, `close` and the
  form's submit handler;
* `src/layouts/functions/ui/index.js` and `src/layouts/helpers/ui/index.js`: the create,
  edit and delete actions of the two screens;
* `src/layouts/functions/ui/dialogs/EditDialogBody.js` and its helpers counterpart: the
  controls of the edit forms;
* `src/services/ProtectedRoute.js` and `getRoutes` of `src/App.js`.

React state is passed explicitly: every handler maps the state of the render it was created
in to the state of the next render, together with the list of URLs handed to `getData`
(oldest first).  A pending request is settled by a separate step that receives the outcome
of `getData`.  Promise chains are split at the points where they wait: the outcome of the
awaited call is an argument, and the actions performed are returned as a trace.
-/

namespace BEASRE

/-! ## Regular expression of the search box -/

/-- One item of a character class: a range `lo-hi` or a single literal character. -/
inductive ClassItem where
  | range (lo hi : Char)
  | single (c : Char)
  deriving Repr, DecidableEq

/-- Whether a character is matched by one class item. -/
def ClassItem.test : ClassItem → Char → Bool
  | .range lo hi, c => decide (lo ≤ c) && decide (c ≤ hi)
  | .single d, c => c == d

/-- The class `[A-Za-z0-9*,-]` of `allowedPattern`; the trailing `-` is a literal. -/
def allowedClass : List ClassItem :=
  [.range 'A' 'Z', .range 'a' 'z', .range '0' '9', .single '*', .single ',', .single '-']

/-- Whether a character belongs to a class. -/
def classTest (cls : List ClassItem) (c : Char) : Bool :=
  cls.any fun item => item.test c

/-- Test of the anchored pattern `^[cls]*$` (no flags, so `$` is the end of the input):
the star consumes class characters from the start, and the match succeeds exactly when
the end of the input is reached. -/
def starAnchoredTest (cls : List ClassItem) : List Char → Bool
  | [] => true
  | c :: cs => classTest cls c && starAnchoredTest cls cs

/-- The source's `allowedPattern.test(value)` with `allowedPattern = /^[A-Za-z0-9*,-]*$/`. -/
def allowedPattern (value : String) : Bool :=
  starAnchoredTest allowedClass value.toList

/-! ## `api.js`: error responses, the global error handler and the response interceptor -/

/-- The `response` object nested in an error body, as read by the application's handler. -/
structure ErrorDetail where
  message : Option String
  reason : Option String
  errorCode : Option String
  deriving Repr, DecidableEq

/-- The body (`data`) of an error response. -/
structure ErrorBody where
  response : Option ErrorDetail
  deriving Repr, DecidableEq

/-- The `error.response` object of a failed request: HTTP status and body. -/
structure Response where
  status : Nat
  data : Option ErrorBody
  deriving Repr, DecidableEq

/-- The error object handed to the response interceptor's error branch: `error.response`
(absent when no response was received), whether `error.request` is set, and
`error.message`. -/
structure AxiosError where
  response : Option Response
  request : Bool
  message : String
  deriving Repr, DecidableEq

/-- The value a request promise rejects with: `error.response` or the error itself. -/
inductive Rejection where
  | response (r : Response)
  | error (e : AxiosError)
  deriving Repr, DecidableEq

/-- The argument passed to the global error handler: a response object or a message. -/
inductive HandlerArg where
  | response (r : Response)
  | message (m : String)
  deriving Repr, DecidableEq

/-- A registered handler function, identified by reference. -/
abbrev HandlerRef := Nat

/-- Observable actions of the `api.js` module, in the order they are performed. -/
inductive ApiEffect where
  /-- The call `window.dispatchEvent(new CustomEvent('loading', { detail }))`. -/
  | dispatchLoading (detail : Bool)
  /-- The call `authService.login()`. -/
  | login
  /-- The call `errorHandler(arg)` of the registered handler. -/
  | callErrorHandler (handler : HandlerRef) (arg : HandlerArg)
  /-- The call `console.error('GET error: %s', error)`. -/
  | consoleError (format : String) (error : Rejection)
  deriving Repr, DecidableEq

/-- Module-level state of `api.js`: `let errorHandler = null`. -/
structure ApiModule where
  errorHandler : Option HandlerRef
  deriving Repr, DecidableEq

/-- The module as loaded: no handler registered. -/
def ApiModule.init : ApiModule := { errorHandler := none }

/-- The source's `setGlobalErrorHandler(handler)`; `none` stands for `null`. -/
def setGlobalErrorHandler (handler : Option HandlerRef) (m : ApiModule) : ApiModule :=
  { m with errorHandler := handler }

/-- The guarded broadcast `if (typeof window !== 'undefined') window.dispatchEvent(...)`. -/
def dispatchLoadingEvent (hasWindow : Bool) (detail : Bool) : List ApiEffect :=
  if hasWindow then [.dispatchLoading detail] else []

/-- The guarded call `if (errorHandler != null) errorHandler(arg)` for a handler call that
returns: the call is recorded.  `callHandlerRun` below also gives how the call ends. -/
def callHandler (m : ApiModule) (arg : HandlerArg) : List ApiEffect :=
  match m.errorHandler with
  | some h => [.callErrorHandler h arg]
  | none => []

/-- The error branch of `api.interceptors.response.use` when the handler call, if any,
returns: the actions performed and the value passed to `Promise.reject`.
`responseErrorInterceptorRun` below covers a handler call that throws. -/
def responseErrorInterceptor (hasWindow : Bool) (m : ApiModule) (error : AxiosError) :
    List ApiEffect × Rejection :=
  let loadingOff := dispatchLoadingEvent hasWindow false
  match error.response with
  | some r =>
    if r.status == 401 then
      (loadingOff ++ [.login], .response r)
    else
      (loadingOff ++ callHandler m (.response r), .response r)
  | none =>
    let message :=
      if error.request then
        "No response received from server. Please check your network connection."
      else
        "Request setup error: " ++ error.message
    (loadingOff ++ callHandler m (.message message), .error error)

/-- Number of `authService.login()` calls in a trace. -/
def loginCalls (trace : List ApiEffect) : Nat :=
  trace.countP fun e => e == .login

/-- The arguments of the calls made to handler `h` in a trace, in order. -/
def handlerCalls (h : HandlerRef) (trace : List ApiEffect) : List HandlerArg :=
  trace.filterMap fun e =>
    match e with
    | .callErrorHandler g arg => if g = h then some arg else none
    | _ => none

/-- The arguments of all handler calls in a trace, whatever the handler. -/
def allHandlerCalls (trace : List ApiEffect) : List (HandlerRef × HandlerArg) :=
  trace.filterMap fun e =>
    match e with
    | .callErrorHandler g arg => some (g, arg)
    | _ => none

/-! ## Table state -/

/-- A row of the table: an entity record with its identifier and remaining fields. -/
structure Row where
  id : String
  fields : List (String × String)
  deriving Repr, DecidableEq

/-- The page envelope returned by the list endpoints. -/
structure PageEnvelope where
  content : List Row
  totalElements : Nat
  deriving Repr, DecidableEq

/-- The value held in the `data` state: the initial empty array `[]`, or the result of the
last successful fetch. -/
inductive TableData where
  | initial
  | page (envelope : PageEnvelope)
  deriving Repr, DecidableEq

/-- The props of `DataTableWithPagination` that take part in fetching. -/
structure Props where
  fetchUrl : String
  searchKey : String
  deriving Repr, DecidableEq

/-- The `useState` cells of `DataTableWithPagination`.  Page numbers are integers
(`currentPage - 1` is an ordinary subtraction), the page size is a natural number. -/
structure TableState where
  data : TableData
  loading : Bool
  currentPage : Int
  itemsPerPage : Nat
  searchValue : String
  errorMessage : String
  deriving Repr, DecidableEq

/-- State of the first render: `useState([])`, `useState(true)`, `useState(1)`,
`useState(5)`, `useState('')`, `useState('')`. -/
def initialState : TableState :=
  { data := .initial, loading := true, currentPage := 1, itemsPerPage := 5,
    searchValue := "", errorMessage := "" }

/-- The source's `data.content` (`undefined` on the initial empty array). -/
def currentItems (s : TableState) : Option (List Row) :=
  match s.data with
  | .initial => none
  | .page e => some e.content

/-- The source's `data.totalElements` passed as `paginationTotalRows`. -/
def paginationTotalRows (s : TableState) : Option Nat :=
  match s.data with
  | .initial => none
  | .page e => some e.totalElements

/-- JavaScript `a && b` on strings: the empty string is falsy and is returned as is. -/
def jsAnd (a b : String) : String :=
  if a.isEmpty then a else b

/-- The endpoint built by `fetchData` and handed to `getData`. -/
def fetchEndpoint (p : Props) (s : TableState) : String :=
  p.fetchUrl ++ "?page=" ++ toString (s.currentPage - 1) ++ "&size=" ++ toString s.itemsPerPage
    ++ "&sort=createdDate,desc"
    ++ jsAnd s.searchValue
        ("&search=" ++ p.searchKey ++ "=like=" ++ s.searchValue ++ ",description=like="
          ++ s.searchValue)

/-- The synchronous part of `fetchData`: `setLoading(true)` and the call of `getData`.
Returns the next state and the requested endpoints. -/
def fetchData (p : Props) (s : TableState) : TableState × List String :=
  ({ s with loading := true }, [fetchEndpoint p s])

/-- The source's `getData(endpoint)` given the outcome of `api.get(endpoint)`: on success
the response's `data`; on failure the error is logged and rethrown. -/
def getData (outcome : Except Rejection PageEnvelope) :
    Except Rejection PageEnvelope × List ApiEffect :=
  match outcome with
  | .ok data => (.ok data, [])
  | .error e => (.error e, [.consoleError "GET error: %s" e])

/-- The continuation of `fetchData` after `await getData(...)`, applied to the state held
when the request settles: `setData(result); setLoading(false)` when `getData` resolved;
when it rejected the `await` throws and neither setter is reached. -/
def fetchDataSettled (s : TableState) (result : Except Rejection PageEnvelope) : TableState :=
  match result with
  | .ok page => { s with data := .page page, loading := false }
  | .error _ => s

/-- A complete `fetchData()` call with nothing happening in between: request issued from
state `s`, then settled with the given outcome of `api.get`. -/
def fetchDataRun (p : Props) (s : TableState) (outcome : Except Rejection PageEnvelope) :
    TableState :=
  fetchDataSettled (fetchData p s).1 (getData outcome).1

/-- The source's `handleInputChange(e)` with `value = e.target.value`. -/
def handleInputChange (value : String) (s : TableState) : TableState :=
  if allowedPattern value then
    { s with searchValue := value, errorMessage := "" }
  else
    { s with errorMessage := "Only characters A-Z, a-z, 0-9, and * are allowed." }

/-- The source's `handleKeyDown(event)` with `key = event.key`. -/
def handleKeyDown (p : Props) (key : String) (s : TableState) : TableState × List String :=
  if key == "Enter" then fetchData p s else (s, [])

/-- The source's `handlePageChange(page)`. -/
def handlePageChange (page : Int) (s : TableState) : TableState :=
  { s with currentPage := page }

/-- The source's `handleRowsPerPageChange(newRowsPerPage)`. -/
def handleRowsPerPageChange (newRowsPerPage : Nat) (s : TableState) : TableState :=
  { s with itemsPerPage := newRowsPerPage }

/-- The effect `useEffect(() => { fetchData(); }, [currentPage, itemsPerPage])` after a
re-render from `prev` to `next`: it runs when one of the two dependencies changed. -/
def useEffectFetch (p : Props) (prev next : TableState) : TableState × List String :=
  if prev.currentPage ≠ next.currentPage ∨ prev.itemsPerPage ≠ next.itemsPerPage then
    fetchData p next
  else
    (next, [])

/-- Mounting the component: first render from `initialState`, then the effect runs. -/
def mount (p : Props) : TableState × List String :=
  fetchData p initialState

/-- User and pager events handled by the component. -/
inductive Event where
  /-- The `onChange` event of the search box carrying the new input value. -/
  | inputChange (value : String)
  /-- The `onKeyDown` event of the search box carrying `event.key`. -/
  | keyDown (key : String)
  /-- The pager's `onChangePage`. -/
  | changePage (page : Int)
  /-- The pager's `onChangeRowsPerPage`. -/
  | changeRowsPerPage (newRowsPerPage : Nat)
  /-- A click on the refresh icon, or the imperative `refresh()`. -/
  | refresh
  deriving Repr, DecidableEq

/-- The event handler proper: state after the handler and the fetches it issued itself. -/
def handle (p : Props) (s : TableState) : Event → TableState × List String
  | .inputChange value => (handleInputChange value s, [])
  | .keyDown key => handleKeyDown p key s
  | .changePage page => (handlePageChange page s, [])
  | .changeRowsPerPage n => (handleRowsPerPageChange n s, [])
  | .refresh => fetchData p s

/-- One event: the handler runs on state `s`, the component re-renders and the effect
runs against the dependencies of the previous render.  Returns the resulting state and
all fetches issued, in order. -/
def dispatch (p : Props) (s : TableState) (ev : Event) : TableState × List String :=
  let afterHandler := handle p s ev
  let afterEffect := useEffectFetch p s afterHandler.1
  (afterEffect.1, afterHandler.2 ++ afterEffect.2)

/-- Typing `value` into the search box and then pressing Enter. -/
def enterSearch (p : Props) (s : TableState) (value : String) : TableState × List String :=
  let typed := dispatch p s (.inputChange value)
  let entered := dispatch p typed.1 (.keyDown "Enter")
  (entered.1, typed.2 ++ entered.2)

/-- The characters of the set `[A-Za-z0-9*,-]`, stated independently of the pattern. -/
abbrev inSearchCharset (c : Char) : Prop :=
  c.isAlpha = true ∨ c.isDigit = true ∨ c = '*' ∨ c = ',' ∨ c = '-'

/-- A table on its third page with the default page size. -/
def thirdPageState : TableState :=
  { initialState with currentPage := 3, loading := false }

/-- A network failure: no response was received for the request. -/
def networkError : AxiosError :=
  { response := none, request := true, message := "Network Error" }

/-- A failed request answered with status 401. -/
def unauthorizedError : AxiosError :=
  { response := some { status := 401, data := none }, request := true,
    message := "Request failed with status code 401" }

/-- An error response with status 500 and a structured error body. -/
def serverErrorResponse : Response :=
  { status := 500,
    data := some ⟨some ⟨some "Rule not found", some "NOT_FOUND", some "E404"⟩⟩ }

/-- A failed request answered with status 500 and an error body. -/
def serverError : AxiosError :=
  { response := some serverErrorResponse, request := true,
    message := "Request failed with status code 500" }

/-- The props of the functions screen's table. -/
def functionsProps : Props :=
  { fetchUrl := "/function-library/read", searchKey := "name" }

/-- The table of the functions screen after mount, once the input `a b` was rejected. -/
def rejectedInputState : TableState :=
  (dispatch functionsProps (mount functionsProps).1 (.inputChange "a b")).1

/-! ## `api.js`: the request interceptor -/

/-- A string-keyed object as an association list in insertion order. -/
abbrev JsObject := List (String × String)

/-- The assignment `obj[key] = value`: an existing property is overwritten in place, a new
one is appended. -/
def setEntry (key value : String) : JsObject → JsObject
  | [] => [(key, value)]
  | (k, v) :: rest =>
    if k = key then (key, value) :: rest else (k, v) :: setEntry key value rest

/-- The property read `obj[key]` (`none` is `undefined`). -/
def getEntry (key : String) : JsObject → Option String
  | [] => none
  | (k, v) :: rest => if k = key then some v else getEntry key rest

/-- The signed-in user of the OIDC session. -/
structure User where
  access_token : String
  deriving Repr, DecidableEq

/-- An outgoing request configuration: the endpoint and the headers. -/
structure RequestConfig where
  url : String
  headers : JsObject
  deriving Repr, DecidableEq

/-- The source's `getAccessToken()` given the value `authService.getUser()` resolved with
(`none` is `null`): the user's `access_token`, or `null`. -/
def getAccessToken (user : Option User) : Option String :=
  match user with
  | some u => some u.access_token
  | none => none

/-- The fulfilment handler of `api.interceptors.request.use`: the configuration returned
and the actions performed.  A token is truthy when it is a non-empty string. -/
def requestInterceptor (hasWindow : Bool) (user : Option User) (config : RequestConfig) :
    RequestConfig × List ApiEffect :=
  let decorated :=
    match getAccessToken user with
    | some token =>
      if token.isEmpty then config
      else { config with headers := setEntry "Authorization" ("Bearer " ++ token) config.headers }
    | none => config
  (decorated, dispatchLoadingEvent hasWindow true)

/-- A request for the first page of functions, with the default content type. -/
def readRequest : RequestConfig :=
  { url := "/function-library/read?page=0&size=5&sort=createdDate,desc",
    headers := [("Content-Type", "application/json")] }

/-! ## `GenericDialog` -/

/-- The display options of the dialog; a field that the caller omits is `none`. -/
structure DialogOptions where
  submitButtonText : Option String
  cancelButtonText : Option String
  title : Option String
  content : Option String
  deriving Repr, DecidableEq

/-- The value held in the `item` state: `null`, `undefined`, or an entity. -/
inductive ItemRef where
  | null
  | undefined
  | entity (row : Row)
  deriving Repr, DecidableEq

/-- The `useState` cells of `GenericDialog`. -/
structure DialogState where
  item : ItemRef
  dialog : Bool
  dialogOptions : DialogOptions
  deriving Repr, DecidableEq

/-- State of the first render: `useState(null)`, `useState(false)` and the default
options. -/
def DialogState.init : DialogState :=
  { item := .null, dialog := false,
    dialogOptions :=
      { submitButtonText := some "Submit", cancelButtonText := some "Cancel",
        title := some "Generic Dialog", content := some "Generic Dialog Content" } }

/-- The source's `options(opts, item)`: the promise executor runs `setItem(item)` and
`setDialogOptions(opts)` synchronously. -/
def options (opts : DialogOptions) (item : ItemRef) (s : DialogState) : DialogState :=
  { s with item := item, dialogOptions := opts }

/-- The source's `show(flag)`, the setter of the `dialog` state. -/
def «show» (flag : Bool) (s : DialogState) : DialogState :=
  { s with dialog := flag }

/-- The source's `showDialog(opts, item)`: `options(opts, item).then(show(true))`, where
`show(true)` is evaluated as the argument of `then`, right after `options` has run.  A
call without an entity passes `ItemRef.undefined`. -/
def showDialog (opts : DialogOptions) (item : ItemRef) (s : DialogState) : DialogState :=
  «show» true (options opts item s)

/-- The source's `close()`: `show(false)`. -/
def close (s : DialogState) : DialogState :=
  «show» false s

/-- The source's `Object.fromEntries(formData.entries())`: the entries are assigned in
order, a later entry of the same name overwriting the earlier one. -/
def fromEntries (entries : List (String × String)) : JsObject :=
  entries.foldl (fun obj entry => setEntry entry.1 entry.2 obj) []

/-- How a call of the caller's `submitAction` ends: it returns, the work it started
failing later or not, or it throws. -/
inductive CallOutcome where
  | returned (failsLater : Bool)
  | threw
  deriving Repr, DecidableEq

/-- Observable actions of the form's submit handler. -/
inductive DialogEffect where
  /-- The call `event.preventDefault()`. -/
  | preventDefault
  /-- The call `submitAction(formJson)`. -/
  | submitAction (formJson : JsObject)
  deriving Repr, DecidableEq

/-- The form's `onSubmit` handler; `entries` are the `FormData` entries of the form (its
named fields with their values) and `submitAction` is the caller's prop, absent or a
function.  When the call of `submitAction` throws, `close()` is not reached. -/
def onSubmit (submitAction : Option (JsObject → CallOutcome))
    (entries : List (String × String)) (s : DialogState) : DialogState × List DialogEffect :=
  match submitAction with
  | some action =>
    let formJson := fromEntries entries
    match action formJson with
    | .returned _ => (close s, [.preventDefault, .submitAction formJson])
    | .threw => (s, [.preventDefault, .submitAction formJson])
  | none => (close s, [.preventDefault])

/-- The arguments of the `submitAction` calls in a trace, in order. -/
def submitCalls (trace : List DialogEffect) : List JsObject :=
  trace.filterMap fun e =>
    match e with
    | .submitAction formJson => some formJson
    | .preventDefault => none

/-- The options the screens pass when opening the edit dialog. -/
def editDialogOpts : DialogOptions :=
  { submitButtonText := some "Edit", cancelButtonText := some "Cancel",
    title := some "Edit Function", content := some "Please enter the information you want" }

/-- An entity shown in the table. -/
def sampleRow : Row :=
  { id := "abc-123", fields := [("name", "Foo"), ("description", "First function")] }

/-! ## The functions and helpers screens (`layouts/*/ui/index.js`) -/

/-- The `info` of a notification: a text, or the function `Date.now`, which the screens
pass uncalled. -/
inductive NoticeInfo where
  | text (value : String)
  | dateNow
  deriving Repr, DecidableEq

/-- The options of a notification (`DataModel.SUCCESS` and its siblings). -/
structure Notice where
  color : String
  icon : String
  title : String
  content : String
  info : NoticeInfo
  deriving Repr, DecidableEq

/-- The constant `DataModel.SUCCESS` of `layouts/helpers/model/index.js`. -/
def DataModel.SUCCESS : Notice :=
  { color := "success", icon := "success", title := "", content := "", info := .text "" }

/-- The source's `DataModel.message(type, title, content, info)`: the three fields are
assigned and the promise resolves with `type`. -/
def DataModel.message (type : Notice) (title content : String) (info : NoticeInfo) : Notice :=
  { type with title := title, content := content, info := info }

/-- What distinguishes the two screens, which are otherwise the same code: the REST
resource, the form fields copied into the create and update payloads, and the `SUCCESS`
constant of the screen's `DataModel`. -/
structure Screen where
  resource : String
  createFields : List String
  editFields : List String
  success : Notice
  deriving Repr, DecidableEq

/-- The helpers screen (`layouts/helpers/ui/index.js`). -/
def helpersScreen : Screen :=
  { resource := "/rule-helper",
    createFields := ["name", "description", "packageUrl", "packagePath", "containerName"],
    editFields := ["id", "name", "description", "packageUrl", "packagePath", "containerName"],
    success := DataModel.SUCCESS }

/-- The functions screen (`layouts/functions/ui/index.js`); its `DataModel` module is not
part of the sources at hand, so its `SUCCESS` constant is a parameter. -/
def functionsScreen (success : Notice) : Screen :=
  { resource := "/function-library",
    createFields := ["name", "description", "mvlCode", "category", "containerName"],
    editFields := ["id", "name", "description", "mvlCode", "category", "containerName"],
    success := success }

/-- The request body built from the submitted form: each listed field with the form's
value for it (`none` is `undefined`). -/
def payloadOf (fields : List String) (formJson : JsObject) : List (String × Option String) :=
  fields.map fun name => (name, getEntry name formJson)

/-- Observable actions of a screen, in the order they are performed. -/
inductive ScreenEffect where
  /-- The call `confirm({ description })`. -/
  | confirm (description : String)
  /-- The call `postData(endpoint, payload)`. -/
  | postData (endpoint : String) (payload : List (String × Option String))
  /-- The call `patchData(endpoint, payload)`. -/
  | patchData (endpoint : String) (payload : List (String × Option String))
  /-- The call `deleteData(endpoint)`. -/
  | deleteData (endpoint : String)
  /-- The call `showSnack(opts)`. -/
  | showSnack (opts : Notice)
  /-- The call `notifiRef.current.show(opts)`. -/
  | notificationShow (opts : Notice)
  /-- The call `datatable.current.refresh()`. -/
  | refresh
  /-- The call `console.error(e)`; `none` when the prompt rejected without a value. -/
  | consoleError (e : Option Rejection)
  deriving Repr, DecidableEq

/-- The source's `showSnack(opts)`: the notification is shown when `notifiRef.current` is
set; the promise the `async` function returns resolves in either case. -/
def showSnack (notifiMounted : Bool) (opts : Notice) : List ScreenEffect :=
  .showSnack opts :: (if notifiMounted then [.notificationShow opts] else [])

/-- The success continuation shared by the three actions:
`DataModel.message(DataModel.SUCCESS, title, content, Date.now)
   .then((o) => showSnack(o).then(() => datatable.current.refresh()))`. -/
def notifyThenRefresh (scr : Screen) (notifiMounted : Bool) (title content : String) :
    List ScreenEffect :=
  showSnack notifiMounted (DataModel.message scr.success title content .dateNow) ++ [.refresh]

/-- The source's `createSubmitAction(formJson)` with the outcome of the POST call. -/
def createSubmitAction (scr : Screen) (notifiMounted : Bool) (formJson : JsObject)
    (outcome : Except Rejection Unit) : List ScreenEffect :=
  .postData (scr.resource ++ "/create") (payloadOf scr.createFields formJson) ::
    match outcome with
    | .ok _ => notifyThenRefresh scr notifiMounted "Create Request" "Create request is completed."
    | .error e => [.consoleError (some e)]

/-- The source's `editSubmitAction(formJson)` with the outcome of the PATCH call. -/
def editSubmitAction (scr : Screen) (notifiMounted : Bool) (formJson : JsObject)
    (outcome : Except Rejection Unit) : List ScreenEffect :=
  .patchData (scr.resource ++ "/update") (payloadOf scr.editFields formJson) ::
    match outcome with
    | .ok _ => notifyThenRefresh scr notifiMounted "Edit Request" "Edit request is completed."
    | .error e => [.consoleError (some e)]

/-- How the confirmation prompt settles: it resolves when the user confirms and rejects
when the user declines. -/
inductive ConfirmOutcome where
  | accepted
  | declined
  deriving Repr, DecidableEq

/-- The state of a promise. -/
inductive PromiseState where
  | pending
  | resolved
  | rejected
  deriving Repr, DecidableEq

/-- The synchronous part of `handleDelete(item)`: the prompt is opened. -/
def handleDeleteStart (item : Row) : List ScreenEffect :=
  [.confirm ("This will permanently delete " ++ item.id ++ ".")]

/-- The part of `handleDelete(item)` that runs once the prompt has settled.  When it
resolved, the first `then` calls `deleteData` without returning its promise, so the second
`then` follows without waiting for the DELETE call; when it rejected, both are skipped and
`catch` logs. -/
def handleDeleteConfirmSettled (scr : Screen) (notifiMounted : Bool) (item : Row) :
    ConfirmOutcome → List ScreenEffect
  | .accepted =>
    .deleteData (scr.resource ++ "/delete/" ++ item.id) ::
      notifyThenRefresh scr notifiMounted "Delete Request" "Delete request is completed!"
  | .declined => [.consoleError none]

/-- The final state of the promise `handleDelete(item)` returns: `resolve()` is called only
from `deleteData(...).then(() => resolve())`. -/
def handleDeletePromise : ConfirmOutcome → Except Rejection Unit → PromiseState
  | .accepted, .ok _ => .resolved
  | .accepted, .error _ => .pending
  | .declined, _ => .pending

/-- The source's `handleDelete(item)` with the outcome of the prompt and of the DELETE call:
all actions in order, and the final state of the returned promise. -/
def handleDelete (scr : Screen) (notifiMounted : Bool) (item : Row) (answer : ConfirmOutcome)
    (outcome : Except Rejection Unit) : List ScreenEffect × PromiseState :=
  (handleDeleteStart item ++ handleDeleteConfirmSettled scr notifiMounted item answer,
    handleDeletePromise answer outcome)

/-- The endpoints of the `deleteData` calls in a trace, in order. -/
def deleteCalls (trace : List ScreenEffect) : List String :=
  trace.filterMap fun e =>
    match e with
    | .deleteData endpoint => some endpoint
    | _ => none

/-- Number of `datatable.current.refresh()` calls in a trace. -/
def refreshCalls (trace : List ScreenEffect) : Nat :=
  trace.countP fun e => e == .refresh

/-- The options of the `showSnack` calls in a trace, in order. -/
def snackCalls (trace : List ScreenEffect) : List Notice :=
  trace.filterMap fun e =>
    match e with
    | .showSnack opts => some opts
    | _ => none

/-- The table's `deleteAction(item)` up to its first `await`: `handleDelete(item)` has been
called and no fetch has been issued. -/
def deleteActionStart (s : TableState) : TableState × List String :=
  (s, [])

/-- The table's `deleteAction(item)` once the promise of `handleDelete(item)` has reached
its final state: `await fetchData()` runs only when it resolved.  `clicked` is the state of
the render whose `fetchData` the action closed over, `current` the state held now. -/
def deleteAction (p : Props) (clicked current : TableState) :
    PromiseState → TableState × List String
  | .resolved => ({ current with loading := true }, (fetchData p clicked).2)
  | .rejected => (current, [])
  | .pending => (current, [])

/-! ## The edit dialog bodies (`layouts/*/ui/dialogs/EditDialogBody.js`) -/

/-- The property read `item?.field` on the value held by the dialog (`none` is
`undefined`); `null` and `undefined` short-circuit. -/
def itemField (item : ItemRef) (field : String) : Option String :=
  match item with
  | .entity row => if field = "id" then some row.id else getEntry field row.fields
  | .null => none
  | .undefined => none

/-- JavaScript `value || ""` on a string property that may be `undefined`. -/
def orEmpty : Option String → String
  | some v => v
  | none => ""

/-- The kinds of controls the edit forms are made of. -/
inductive ControlKind where
  /-- A `TextField`, read-only when `InputProps.readOnly` is set. -/
  | textField (readOnly : Bool)
  /-- The `CodeMirror` editor; it is not a form control and has no name. -/
  | codeEditor
  /-- An `input type="hidden"`. -/
  | hiddenInput
  deriving Repr, DecidableEq

/-- A rendered control: its kind, its form name, the value it is rendered with
(`defaultValue` of a text field, `value` of the editor and of the hidden input) and its
`required` flag. -/
structure Control where
  kind : ControlKind
  name : Option String
  value : String
  required : Bool
  deriving Repr, DecidableEq

/-- A `TextField` named `name` with `defaultValue={item?.<name> || ""}`. -/
def entityTextField (item : ItemRef) (name : String) (readOnly required : Bool) : Control :=
  { kind := .textField readOnly, name := some name, value := orEmpty (itemField item name),
    required := required }

/-- The initial value of the `code` state of the functions edit body: `useState("")`. -/
def Functions.initialCode : String := ""

/-- The editor's `onChange={(value) => setCode(value)}`. -/
def Functions.onCodeChange (value : String) (_code : String) : String := value

/-- The source's `EditDialogBody(item)` of the functions screen, with the current value of
its `code` state.  (The `onChange` handlers of the text fields, which write the typed text
back into the entity object, are not part of what is rendered.) -/
def Functions.EditDialogBody (item : ItemRef) (code : String) : List Control :=
  [ entityTextField item "id" true true,
    entityTextField item "name" true true,
    entityTextField item "description" false true,
    { kind := .codeEditor, name := none, value := orEmpty (itemField item "mvlCode"),
      required := true },
    { kind := .hiddenInput, name := some "mvlCode", value := code, required := false },
    entityTextField item "category" false false,
    entityTextField item "containerName" false false ]

/-- The source's `EditDialogBody(item)` of the helpers screen. -/
def Helpers.EditDialogBody (item : ItemRef) : List Control :=
  [ entityTextField item "id" true true,
    entityTextField item "name" true true,
    entityTextField item "description" false true,
    entityTextField item "packageUrl" false true,
    entityTextField item "packagePath" false true,
    entityTextField item "containerName" false false ]

/-- The entries of `new FormData(form)`: one per named control, in document order.  A text
field that is not read-only carries what the user typed into it (`typed`), when anything;
every other control carries the value it was rendered with. -/
def formEntries (controls : List Control) (typed : JsObject) : List (String × String) :=
  controls.filterMap fun c =>
    match c.name with
    | none => none
    | some name =>
      match c.kind with
      | .textField false => some (name, (getEntry name typed).getD c.value)
      | _ => some (name, c.value)

/-- The object the functions edit dialog hands to `submitAction` on submit. -/
def Functions.editFormJson (item : ItemRef) (code : String) (typed : JsObject) : JsObject :=
  fromEntries (formEntries (Functions.EditDialogBody item code) typed)

/-- A function entity with some MVL code. -/
def sampleFunction : Row :=
  { id := "abc-123",
    fields := [("name", "Foo"), ("description", "First function"), ("mvlCode", "return 1;")] }

/-! ## The table's columns and row actions -/

/-- Which of the optional row handlers the parent supplied. -/
structure RowHandlers where
  handleEdit : Bool
  handleDelete : Bool
  handleView : Bool
  handleDraw : Bool
  deriving Repr, DecidableEq

/-- An affordance of the Actions cell: one of the four icon buttons, or the copy-id button
with its tooltip (`row.id`) and its text (`row.id.substring(0, 8) + '...'`). -/
inductive Affordance where
  | edit
  | delete
  | view
  | draw
  | copyId (tooltip : String) (text : String)
  deriving Repr, DecidableEq

/-- The icon shown on an affordance. -/
def Affordance.icon : Affordance → String
  | .edit => "edit"
  | .delete => "delete"
  | .view => "visibility"
  | .draw => "draw"
  | .copyId _ _ => "copy"

/-- The source's `cell: row => ...` of the Actions column: `{handler && <IconButton .../>}`
for the four handlers in turn, then the copy-id button. -/
def actionsCell (h : RowHandlers) (row : Row) : List Affordance :=
  (if h.handleEdit then [Affordance.edit] else []) ++
  (if h.handleDelete then [Affordance.delete] else []) ++
  (if h.handleView then [Affordance.view] else []) ++
  (if h.handleDraw then [Affordance.draw] else []) ++
  [Affordance.copyId row.id (row.id.take 8 ++ "...")]

/-- A column descriptor supplied by the caller (`cols`), identified by its name. -/
structure ColumnDesc where
  name : String
  sortable : Bool
  deriving Repr, DecidableEq

/-- A column of the rendered table: the Actions column or one of the caller's. -/
inductive Column where
  | actions (ignoreRowClick : Bool)
  | caller (desc : ColumnDesc)
  deriving Repr, DecidableEq

/-- The source's `columns = [{ name: 'Actions', cell, ignoreRowClick: true }, ...cols]`. -/
def columns (cols : List ColumnDesc) : List Column :=
  .actions true :: cols.map .caller

/-- Whether the handler behind one of the four gated affordances was supplied. -/
def RowHandlers.supplies (h : RowHandlers) : Affordance → Bool
  | .edit => h.handleEdit
  | .delete => h.handleDelete
  | .view => h.handleView
  | .draw => h.handleDraw
  | .copyId _ _ => true

/-- The handlers the functions and helpers screens supply: edit and delete. -/
def screenHandlers : RowHandlers :=
  { handleEdit := true, handleDelete := true, handleView := false, handleDraw := false }

/-! ## The global loading signal -/

/-- The source's `handleLoading(event)` of `App.js`: `setLoading(event.detail)`. -/
def handleLoading (detail : Bool) (_loading : Bool) : Bool := detail

/-- The actions of the fulfilment handler of `api.interceptors.response.use`, which returns
the response unchanged. -/
def responseInterceptor (hasWindow : Bool) : List ApiEffect :=
  dispatchLoadingEvent hasWindow false

/-- The application's loading flag after the `loading` events of a trace have been
delivered to the listener `App.js` registers on `window`. -/
def appLoading (loading : Bool) (trace : List ApiEffect) : Bool :=
  trace.foldl
    (fun flag e =>
      match e with
      | .dispatchLoading detail => handleLoading detail flag
      | _ => flag)
    loading

/-- A request lifecycle event seen by the interceptors in the browser. -/
inductive RequestEvent where
  /-- A request starts: the request interceptor runs. -/
  | start (user : Option User) (config : RequestConfig)
  /-- A request completes with a response: the response interceptor runs. -/
  | complete
  /-- A request completes with an error: the response interceptor's error branch runs. -/
  | fail (m : ApiModule) (error : AxiosError)
  deriving Repr, DecidableEq

/-- The value the claim ascribes to an event: `true` for a start, `false` for a
completion. -/
def RequestEvent.carried : RequestEvent → Bool
  | .start _ _ => true
  | .complete => false
  | .fail _ _ => false

/-- The actions the interceptors perform on an event (in the browser, `window` exists). -/
def RequestEvent.trace : RequestEvent → List ApiEffect
  | .start user config => (requestInterceptor true user config).2
  | .complete => responseInterceptor true
  | .fail m error => (responseErrorInterceptor true m error).1

/-- The application's loading flag after a sequence of request events. -/
def loadingAfter (loading : Bool) (events : List RequestEvent) : Bool :=
  events.foldl (fun flag ev => appLoading flag ev.trace) loading

/-! ## A delete click: the table and its screen together -/

/-- The table's `refresh()`, exposed through `useImperativeHandle`: `fetchData()`. -/
def refresh (p : Props) (s : TableState) : TableState × List String :=
  fetchData p s

/-- The fetches the table issues while a screen trace runs: every
`datatable.current.refresh()` of the trace calls the table's `refresh()`. -/
def refreshFetches (p : Props) (s : TableState) (trace : List ScreenEffect) :
    TableState × List String :=
  trace.foldl
    (fun acc e =>
      match e with
      | .refresh => ((refresh p acc.1).1, acc.2 ++ (refresh p acc.1).2)
      | _ => acc)
    (s, [])

/-- A click on the delete affordance of `row`: `deleteAction` calls the screen's
`handleDelete`; the refreshes the screen asks for reach the table while the returned
promise is pending; once that promise has reached its final state `deleteAction`
continues.  Returns the table state and all fetches issued, in order. -/
def deleteClick (p : Props) (scr : Screen) (notifiMounted : Bool) (s : TableState)
    (row : Row) (answer : ConfirmOutcome) (outcome : Except Rejection Unit) :
    TableState × List String :=
  let screen := handleDelete scr notifiMounted row answer outcome
  let refreshed := refreshFetches p s screen.1
  let continued := deleteAction p s refreshed.1 screen.2
  (continued.1, refreshed.2 ++ continued.2)

/-! ## `App.js`: the application's global error handler -/

/-- The value assigned to `opts.content`: a field read from the error body (`none` is
`undefined`), or the handler's argument itself. -/
inductive PayloadContent where
  | field (value : Option String)
  | argument (e : HandlerArg)
  deriving Repr, DecidableEq

/-- The notification options built by the handler and passed to `showSnack`; `none` in
`reason` and `info` is `undefined`. -/
structure ErrorPayload where
  color : String
  icon : String
  title : String
  reason : Option String
  content : PayloadContent
  info : Option String
  deriving Repr, DecidableEq

/-- The handler's `e.data`: the body of a response object when it is truthy; a message
string has no `data` property. -/
def handlerArgData : HandlerArg → Option ErrorBody
  | .response r => r.data
  | .message _ => none

/-- The options object the handler starts from. -/
def defaultErrorOpts : ErrorPayload :=
  { color := "error", icon := "error", title := "Unexpected Error",
    reason := some "For Page Execution", content := .field (some "Unexpected Error"),
    info := some "Unexpected Error" }

/-- The callback registered in `App.js` with `setGlobalErrorHandler((e) => { ... })`:
the options passed to `showSnack`, or the `TypeError` raised when `e.data` is truthy and
`e.data.response` is `undefined`. -/
def globalErrorHandler (e : HandlerArg) : Except String ErrorPayload :=
  match handlerArgData e with
  | some body =>
    let opts := { defaultErrorOpts with title := "Error" }
    match body.response with
    | some detail =>
      .ok { opts with content := .field detail.message, reason := detail.reason,
                      info := detail.errorCode }
    | none => .error "TypeError: Cannot read properties of undefined (reading 'message')"
  | none =>
    .ok { defaultErrorOpts with title := "Error", reason := some "Unexpected Error",
                                content := .argument e, info := some "Unexpected Error" }

/-- An error response whose body has no `response` property, such as a framework's default
error body. -/
def plainErrorResponse : Response :=
  { status := 500, data := some { response := none } }

/-- A failed request answered with `plainErrorResponse`. -/
def plainServerError : AxiosError :=
  { response := some plainErrorResponse, request := true,
    message := "Request failed with status code 500" }

/-! ## Routing (`services/ProtectedRoute.js`, `getRoutes` of `App.js`) -/

/-- A React element as far as routing is concerned: a layout component, a
`ProtectedRoute` element with its `user` and `children` props, or a `Navigate`. -/
inductive Element where
  | component (name : String)
  | protectedRoute (user : Option User) (children : Element)
  | navigate (target : String)
  deriving Repr, DecidableEq

/-- The source's `ProtectedRoute({ user, children })`: the body of `if (!user)` holds only
commented-out statements, so `children` is returned on every path. -/
def ProtectedRoute (user : Option User) (children : Element) : Element :=
  if user.isNone then
    children
  else
    children

/-- What an element renders: a `ProtectedRoute` element renders what the function
`ProtectedRoute` returns for its props. -/
def Element.render : Element → Element
  | .component name => .component name
  | .navigate target => .navigate target
  | .protectedRoute user children => (ProtectedRoute user children).render
termination_by e => sizeOf e
decreasing_by
  simp only [ProtectedRoute, ite_self]
  simp

/-- An entry of the route table: an entry with `collapse` set, or a plain entry with its
`key`, `route` (possibly absent), `whiteListed` flag and `component`. -/
inductive RouteDesc where
  | group (collapse : List RouteDesc)
  | item (key : String) (route : Option String) (whiteListed : Bool) (component : Element)

/-- What `getRoutes` maps an entry to: a `Route` element with its `path`, `element` and
`key`, `null`, or the array returned for a `collapse`. -/
inductive Rendered where
  | route (path : String) (element : Element) (key : String)
  | null
  | nested (items : List Rendered)

mutual
/-- The callback of `allRoutes.map` in `getRoutes`, for the held `user`. -/
def getRoute (user : Option User) : RouteDesc → Rendered
  | .group collapse => .nested (getRoutes user collapse)
  | .item key route whiteListed component =>
    match route with
    | some path =>
      if whiteListed then .route path component key
      else .route path (.protectedRoute user component) key
    | none => .null
/-- The source's `getRoutes(allRoutes)`. -/
def getRoutes (user : Option User) : List RouteDesc → List Rendered
  | [] => []
  | r :: rs => getRoute user r :: getRoutes user rs
end

/-- The element a rendered `Route` shows when its path matches. -/
def Rendered.shown : Rendered → Option Element
  | .route _ element _ => some element.render
  | .null => none
  | .nested _ => none

/-- A request that could not be set up: neither a response nor a request is attached. -/
def setupError : AxiosError :=
  { response := none, request := false, message := "Invalid URL" }

/-! ## The functions edit dialog over several sessions -/

/-- The state of the functions screen's edit dialog: the cells of `GenericDialog` and the
`code` cell of `EditDialogBody`.  `GenericDialog` calls the body as a plain function
(`{body(item)}`), so the `useState("")` of the body is a cell of the dialog instance: it is
created once, when the screen mounts the dialog, and nothing resets it. -/
structure EditDialog where
  dialog : DialogState
  code : String
  deriving Repr, DecidableEq

/-- The edit dialog as mounted: closed, with the `code` cell at its initial value. -/
def EditDialog.init : EditDialog :=
  { dialog := DialogState.init, code := Functions.initialCode }

/-- What happens to the edit dialog. -/
inductive EditDialogEvent where
  /-- The screen's `handleEdit(item)`: `showDialog(DataModel.editDialogOpts, item)`. -/
  | showFor (row : Row)
  /-- The code editor's `onChange` with the new text. -/
  | codeChange (value : String)
  /-- The cancel button or a click outside: `close()`. -/
  | cancel
  /-- The form is submitted, `typed` being what the user typed into the text fields; the
  screen's `editSubmitAction` returns, its PATCH call failing later or not. -/
  | submit (typed : JsObject) (failsLater : Bool)
  deriving Repr, DecidableEq

/-- One event on the edit dialog opened with the options `opts`: the next state and the
form mappings handed to `submitAction`. -/
def EditDialog.step (opts : DialogOptions) (s : EditDialog) :
    EditDialogEvent → EditDialog × List JsObject
  | .showFor row => ({ s with dialog := showDialog opts (.entity row) s.dialog }, [])
  | .codeChange value => ({ s with code := Functions.onCodeChange value s.code }, [])
  | .cancel => ({ s with dialog := close s.dialog }, [])
  | .submit typed failsLater =>
    ({ s with dialog :=
        (onSubmit (some fun _ => .returned failsLater)
          (formEntries (Functions.EditDialogBody s.dialog.item s.code) typed) s.dialog).1 },
      submitCalls
        (onSubmit (some fun _ => .returned failsLater)
          (formEntries (Functions.EditDialogBody s.dialog.item s.code) typed) s.dialog).2)

/-- A sequence of events on the edit dialog: the final state and all form mappings handed
to `submitAction`, in order. -/
def EditDialog.run (opts : DialogOptions) (s : EditDialog) (events : List EditDialogEvent) :
    EditDialog × List JsObject :=
  events.foldl
    (fun acc ev => ((EditDialog.step opts acc.1 ev).1, acc.2 ++ (EditDialog.step opts acc.1 ev).2))
    (s, [])

/-- Whether an event is a change of the code editor. -/
def EditDialogEvent.isCodeChange : EditDialogEvent → Bool
  | .codeChange _ => true
  | _ => false

/-- Another function entity. -/
def otherFunction : Row :=
  { id := "def-456", fields := [("name", "Bar"), ("mvlCode", "return 0;")] }

/-! ## The response interceptor and the behaviour of the registered handler -/

/-- How the promise of a failed request ends once the interceptor's error branch has run:
rejected with the value passed to `Promise.reject`, or rejected with the exception that
the handler call threw inside the interceptor. -/
inductive InterceptorResult where
  | rejected (value : Rejection)
  | threw (exception : String)
  deriving Repr, DecidableEq

/-- How a call of a handler function ends: `.ok ()` when it returns, `.error exception`
when it throws. -/
abbrev HandlerBehaviour := HandlerRef → HandlerArg → Except String Unit

/-- The guarded call `if (errorHandler != null) errorHandler(arg)`: the call made, and the
exception it threw, if any. -/
def callHandlerRun (m : ApiModule) (behaviour : HandlerBehaviour) (arg : HandlerArg) :
    List ApiEffect × Option String :=
  match m.errorHandler with
  | some h =>
    ([.callErrorHandler h arg],
      match behaviour h arg with
      | .ok _ => none
      | .error exception => some exception)
  | none => ([], none)

/-- The error branch of `api.interceptors.response.use` with the behaviour of the handler
functions: the actions performed and how the promise ends.  There is no `try` around the
handler call, so when it throws the statements after it, `return Promise.reject(...)`
included, are not reached. -/
def responseErrorInterceptorRun (hasWindow : Bool) (m : ApiModule)
    (behaviour : HandlerBehaviour) (error : AxiosError) : List ApiEffect × InterceptorResult :=
  let loadingOff := dispatchLoadingEvent hasWindow false
  match error.response with
  | some r =>
    if r.status == 401 then
      (loadingOff ++ [.login], .rejected (.response r))
    else
      let call := callHandlerRun m behaviour (.response r)
      match call.2 with
      | some exception => (loadingOff ++ call.1, .threw exception)
      | none => (loadingOff ++ call.1, .rejected (.response r))
  | none =>
    let message :=
      if error.request then
        "No response received from server. Please check your network connection."
      else
        "Request setup error: " ++ error.message
    let call := callHandlerRun m behaviour (.message message)
    match call.2 with
    | some exception => (loadingOff ++ call.1, .threw exception)
    | none => (loadingOff ++ call.1, .rejected (.error error))

/-- The behaviour of the callback `App.js` registers, whatever reference it is registered
under: it returns once the options are handed to `showSnack`, or throws. -/
def appHandlerBehaviour : HandlerBehaviour := fun _ arg =>
  match globalErrorHandler arg with
  | .ok _ => .ok ()
  | .error exception => .error exception

/-! ## Search-box validation -/

theorem classTest_allowedClass (c : Char) :
    classTest allowedClass c = true ↔ inSearchCharset c := by
  simp [classTest, allowedClass, ClassItem.test, inSearchCharset, Char.isAlpha, Char.isUpper,
    Char.isLower, Char.isDigit, Char.le_def, or_assoc]

theorem starAnchoredTest_allowedClass (cs : List Char) :
    starAnchoredTest allowedClass cs = true ↔ ∀ c ∈ cs, inSearchCharset c := by
  induction cs with
  | nil => simp [starAnchoredTest]
  | cons c cs ih =>
    rw [starAnchoredTest, Bool.and_eq_true, classTest_allowedClass, ih]
    simp

theorem allowedPattern_iff (v : String) :
    allowedPattern v = true ↔ ∀ c ∈ v.toList, inSearchCharset c :=
  starAnchoredTest_allowedClass v.toList

theorem allowedPattern_eq_false (v : String) (h : ¬ ∀ c ∈ v.toList, inSearchCharset c) :
    allowedPattern v = false := by
  cases hp : allowedPattern v
  · rfl
  · exact absurd ((allowedPattern_iff v).1 hp) h

theorem handleInputChange_accepted (v : String) (s : TableState)
    (hp : allowedPattern v = true) :
    handleInputChange v s = { s with searchValue := v, errorMessage := "" } := by
  simp [handleInputChange, hp]

theorem handleInputChange_rejected (v : String) (s : TableState)
    (hp : allowedPattern v = false) :
    handleInputChange v s =
      { s with errorMessage := "Only characters A-Z, a-z, 0-9, and * are allowed." } := by
  simp [handleInputChange, hp]

/-- C1: `handleInputChange` accepts `v` exactly when every character of `v` lies in
`[A-Za-z0-9*,-]` (the pattern test succeeds iff so, the empty string included).  On
acceptance the search value becomes `v` and the validation message becomes empty; on
rejection the held search value is unchanged and the validation message is non-empty. -/
theorem handleInputChange_validation (v : String) (s : TableState) :
    (allowedPattern v = true ↔ ∀ c ∈ v.toList, inSearchCharset c) ∧
    allowedPattern "" = true ∧
    ((∀ c ∈ v.toList, inSearchCharset c) →
      (handleInputChange v s).searchValue = v ∧ (handleInputChange v s).errorMessage = "") ∧
    ((¬ ∀ c ∈ v.toList, inSearchCharset c) →
      (handleInputChange v s).searchValue = s.searchValue ∧
        (handleInputChange v s).errorMessage ≠ "") := by
  refine ⟨allowedPattern_iff v, by decide, fun h => ?_, fun h => ?_⟩
  · rw [handleInputChange_accepted v s ((allowedPattern_iff v).2 h)]
    exact ⟨rfl, rfl⟩
  · rw [handleInputChange_rejected v s (allowedPattern_eq_false v h)]
    exact ⟨rfl, by simp⟩

theorem handleInputChange_validation_witness :
    ((handleInputChange "ab-9,*" initialState).searchValue = "ab-9,*" ∧
      (handleInputChange "ab-9,*" initialState).errorMessage = "") ∧
    ((handleInputChange "a b" { initialState with searchValue := "ab" }).searchValue = "ab" ∧
      (handleInputChange "a b" { initialState with searchValue := "ab" }).errorMessage ≠ "") :=
  ⟨(handleInputChange_validation "ab-9,*" initialState).2.2.1 (by decide),
   (handleInputChange_validation "a b" { initialState with searchValue := "ab" }).2.2.2
     (by decide)⟩

/-! ## Fetches issued from the search box -/

theorem jsAnd_eq (a b : String) : jsAnd a b = if a = "" then "" else b := by
  unfold jsAnd
  by_cases h : a = ""
  · subst h; rfl
  · have h2 : a.isEmpty = false := by
      cases hb : a.isEmpty
      · rfl
      · exact absurd ((String.isEmpty_iff a).1 hb) h
    simp [h, h2]

theorem dispatch_keyDown_enter (p : Props) (s : TableState) :
    dispatch p s (.keyDown "Enter") = ({ s with loading := true }, [fetchEndpoint p s]) := by
  simp [dispatch, handle, handleKeyDown, fetchData, useEffectFetch]

theorem dispatch_inputChange (p : Props) (s : TableState) (v : String) :
    dispatch p s (.inputChange v) = (handleInputChange v s, []) := by
  have h1 : (handleInputChange v s).currentPage = s.currentPage := by
    unfold handleInputChange; split <;> rfl
  have h2 : (handleInputChange v s).itemsPerPage = s.itemsPerPage := by
    unfold handleInputChange; split <;> rfl
  simp [dispatch, handle, useEffectFetch, h1, h2]

theorem rejected_input_effects (p : Props) (s : TableState) (v : String)
    (hv : ¬ ∀ c ∈ v.toList, inSearchCharset c) :
    (dispatch p s (.inputChange v)).2 = [] ∧
    (dispatch p s (.inputChange v)).1.errorMessage ≠ "" ∧
    (dispatch p s (.inputChange v)).1.searchValue = s.searchValue ∧
    fetchEndpoint p (dispatch p s (.inputChange v)).1 = fetchEndpoint p s := by
  rw [dispatch_inputChange, handleInputChange_rejected v s (allowedPattern_eq_false v hv)]
  exact ⟨rfl, by simp, rfl, rfl⟩

/-- C2 (as stated, refuted): in the state reached after the input `a b` was rejected the
validation message is non-empty, and yet the Enter key handler issues a fetch. -/
theorem enter_fetches_despite_validation_message :
    rejectedInputState.errorMessage ≠ "" ∧
    (handleKeyDown functionsProps "Enter" rejectedInputState).2 =
      ["/function-library/read?page=0&size=5&sort=createdDate,desc"] ∧
    (dispatch functionsProps rejectedInputState (.keyDown "Enter")).2 ≠ [] := by
  decide

/-- C2 (amended): a rejected input issues no fetch by itself, sets a validation message and
leaves the held search value unchanged; the Enter key handler issues exactly one fetch in
every table state, whatever the validation message, and after a rejection that fetch is
the one of the state held before the rejected input was typed. -/
theorem enter_after_rejection (p : Props) (s : TableState) (v : String)
    (hv : ¬ ∀ c ∈ v.toList, inSearchCharset c) :
    (dispatch p s (.inputChange v)).2 = [] ∧
    (dispatch p s (.inputChange v)).1.errorMessage ≠ "" ∧
    (dispatch p s (.inputChange v)).1.searchValue = s.searchValue ∧
    (∀ t : TableState, (dispatch p t (.keyDown "Enter")).2 = [fetchEndpoint p t]) ∧
    (dispatch p (dispatch p s (.inputChange v)).1 (.keyDown "Enter")).2 = [fetchEndpoint p s] := by
  have hr := rejected_input_effects p s v hv
  refine ⟨hr.1, hr.2.1, hr.2.2.1, ?_, ?_⟩
  · intro t; rw [dispatch_keyDown_enter]
  · rw [dispatch_keyDown_enter, hr.2.2.2]

theorem enter_after_rejection_witness :
    (dispatch functionsProps initialState (.inputChange "a b")).2 = [] ∧
    (dispatch functionsProps
        (dispatch functionsProps initialState (.inputChange "a b")).1 (.keyDown "Enter")).2 =
      [fetchEndpoint functionsProps initialState] :=
  have h := enter_after_rejection functionsProps initialState "a b" (by decide)
  ⟨h.1, h.2.2.2.2⟩

theorem enterSearch_fetches (p : Props) (s : TableState) (v : String) :
    (enterSearch p s v).2 = [fetchEndpoint p (handleInputChange v s)] := by
  simp [enterSearch, dispatch_inputChange, dispatch_keyDown_enter]

/-- C3 (as stated, refuted): the empty input consists only of allowed characters, yet the
fetch issued after entering it carries no `search=` parameter; moreover, typing the
disallowed input `a b` and pressing Enter does issue a fetch. -/
theorem enterSearch_counterexample :
    (∀ c ∈ "".toList, inSearchCharset c) ∧
    (enterSearch functionsProps initialState "").2 =
      ["/function-library/read?page=0&size=5&sort=createdDate,desc"] ∧
    (enterSearch functionsProps initialState "").2 ≠
      ["/function-library/read?page=0&size=5&sort=createdDate,desc"
        ++ "&search=name=like=" ++ "" ++ ",description=like=" ++ ""] ∧
    (¬ ∀ c ∈ "a b".toList, inSearchCharset c) ∧
    (enterSearch functionsProps initialState "a b").2 =
      ["/function-library/read?page=0&size=5&sort=createdDate,desc"] := by
  decide

/-- C3 (amended): for every non-empty input `v` over `[A-Za-z0-9*,-]`, typing `v` and
pressing Enter issues exactly one fetch, which carries
`&search=<searchKey>=like=<v>,description=like=<v>`; for the empty input the fetch carries
no search parameter; for every other input the change event issues no fetch, sets a
validation message and keeps the held search value, so the fetch that Enter issues
afterwards is the one of the held state and never carries the rejected input. -/
theorem enterSearch_search_parameter (p : Props) (s : TableState) (v : String) :
    ((∀ c ∈ v.toList, inSearchCharset c) → v ≠ "" →
      (enterSearch p s v).2 =
        [p.fetchUrl ++ "?page=" ++ toString (s.currentPage - 1) ++ "&size="
          ++ toString s.itemsPerPage ++ "&sort=createdDate,desc"
          ++ ("&search=" ++ p.searchKey ++ "=like=" ++ v ++ ",description=like=" ++ v)]) ∧
    ((enterSearch p s "").2 =
        [p.fetchUrl ++ "?page=" ++ toString (s.currentPage - 1) ++ "&size="
          ++ toString s.itemsPerPage ++ "&sort=createdDate,desc"]) ∧
    ((¬ ∀ c ∈ v.toList, inSearchCharset c) →
      (dispatch p s (.inputChange v)).2 = [] ∧
      (dispatch p s (.inputChange v)).1.errorMessage ≠ "" ∧
      (dispatch p s (.inputChange v)).1.searchValue = s.searchValue ∧
      (enterSearch p s v).2 = [fetchEndpoint p s]) := by
  refine ⟨fun hv hne => ?_, ?_, fun hv => ?_⟩
  · have hp : allowedPattern v = true := (allowedPattern_iff v).2 hv
    rw [enterSearch_fetches]
    simp [handleInputChange, hp, fetchEndpoint, jsAnd_eq, hne]
  · have hp : allowedPattern "" = true := by decide
    rw [enterSearch_fetches]
    simp [handleInputChange, hp, fetchEndpoint, jsAnd_eq]
  · have h := rejected_input_effects p s v hv
    refine ⟨h.1, h.2.1, h.2.2.1, ?_⟩
    rw [enterSearch_fetches, ← h.2.2.2, dispatch_inputChange]

theorem enterSearch_search_parameter_witness :
    (enterSearch functionsProps initialState "rule*").2 =
      ["/function-library/read?page=0&size=5&sort=createdDate,desc"
        ++ "&search=name=like=rule*,description=like=rule*"] ∧
    (dispatch functionsProps initialState (.inputChange "a b")).2 = [] :=
  have h := enterSearch_search_parameter functionsProps initialState
  ⟨by simpa using (h "rule*").1 (by decide) (by decide), ((h "a b").2.2 (by decide)).1⟩

/-! ## The endpoint requested by `fetchData` -/

theorem toString_pred_of_pos (n : Int) (h : 1 ≤ n) :
    toString (n - 1) = toString (n.toNat - 1) := by
  obtain ⟨k, hk⟩ : ∃ k : Nat, n = (k : Int) + 1 := ⟨(n - 1).toNat, by omega⟩
  subst hk
  have h1 : ((k : Int) + 1 - 1) = Int.ofNat k := by simp
  have h2 : ((k : Int) + 1).toNat - 1 = k := by omega
  rw [h1, h2]
  rfl

/-- C4: for a table state with `currentPage ≥ 1`, `fetchData` requests exactly one endpoint,
`fetchUrl?page=<currentPage-1>&size=<itemsPerPage>&sort=createdDate,desc`, followed by
`&search=<searchKey>=like=<searchValue>,description=like=<searchValue>` when the search
value is non-empty and by nothing when it is empty; the page parameter is the decimal
numeral of the natural number `currentPage - 1` (zero-based), and the fetch issued on
mount requests `page=0` and `size=5`. -/
theorem fetchData_endpoint (p : Props) (s : TableState) (h : 1 ≤ s.currentPage) :
    (fetchData p s).2 =
      [p.fetchUrl ++ "?page=" ++ toString (s.currentPage - 1) ++ "&size="
        ++ toString s.itemsPerPage ++ "&sort=createdDate,desc"
        ++ (if s.searchValue = "" then ""
            else "&search=" ++ p.searchKey ++ "=like=" ++ s.searchValue
              ++ ",description=like=" ++ s.searchValue)] ∧
    toString (s.currentPage - 1) = toString (s.currentPage.toNat - 1) ∧
    (mount p).2 = [p.fetchUrl ++ "?page=0&size=5&sort=createdDate,desc"] := by
  refine ⟨?_, toString_pred_of_pos s.currentPage h, ?_⟩
  · simp [fetchData, fetchEndpoint, jsAnd_eq]
  · have h0 : toString ((1 : Int) - 1) = "0" := by decide
    have h5 : toString (5 : Nat) = "5" := by decide
    have hj : jsAnd "" ("&search=" ++ p.searchKey ++ "=like=" ++ "" ++ ",description=like="
        ++ "") = "" := by rw [jsAnd_eq]; simp
    simp only [mount, fetchData, fetchEndpoint, initialState, h0, h5, hj, String.append_assoc]
    rfl

theorem fetchData_endpoint_witness :
    (fetchData functionsProps { thirdPageState with searchValue := "tax*" }).2 =
      ["/function-library/read?page=2&size=5&sort=createdDate,desc"
        ++ "&search=name=like=tax*,description=like=tax*"] :=
  (fetchData_endpoint functionsProps { thirdPageState with searchValue := "tax*" }
    (by decide)).1.trans (by decide)

/-! ## Page and page-size changes -/

theorem dispatch_changePage (p : Props) (s : TableState) (page : Int)
    (h : page ≠ s.currentPage) :
    dispatch p s (.changePage page) =
      ({ s with currentPage := page, loading := true },
        [fetchEndpoint p { s with currentPage := page }]) := by
  have h2 : ¬ s.currentPage = page := fun e => h e.symm
  simp [dispatch, handle, handlePageChange, useEffectFetch, fetchData, h2]

theorem dispatch_changeRowsPerPage (p : Props) (s : TableState) (n : Nat)
    (h : n ≠ s.itemsPerPage) :
    dispatch p s (.changeRowsPerPage n) =
      ({ s with itemsPerPage := n, loading := true },
        [fetchEndpoint p { s with itemsPerPage := n }]) := by
  have h2 : ¬ s.itemsPerPage = n := fun e => h e.symm
  simp [dispatch, handle, handleRowsPerPageChange, useEffectFetch, fetchData, h2]

/-- C5: a page change to a page `page` different from the held one, and a page-size change
to a size `n` different from the held one, each issue exactly one fetch; its `page`
parameter is the resulting current page minus one and its `size` parameter is the
resulting page size. -/
theorem pager_change_fetches_once (p : Props) (s : TableState) :
    (∀ page : Int, page ≠ s.currentPage →
      (dispatch p s (.changePage page)).1.currentPage = page ∧
      (dispatch p s (.changePage page)).1.itemsPerPage = s.itemsPerPage ∧
      (dispatch p s (.changePage page)).2 =
        [p.fetchUrl ++ "?page=" ++ toString (page - 1) ++ "&size=" ++ toString s.itemsPerPage
          ++ "&sort=createdDate,desc"
          ++ jsAnd s.searchValue ("&search=" ++ p.searchKey ++ "=like=" ++ s.searchValue
              ++ ",description=like=" ++ s.searchValue)]) ∧
    (∀ n : Nat, n ≠ s.itemsPerPage →
      (dispatch p s (.changeRowsPerPage n)).1.currentPage = s.currentPage ∧
      (dispatch p s (.changeRowsPerPage n)).1.itemsPerPage = n ∧
      (dispatch p s (.changeRowsPerPage n)).2 =
        [p.fetchUrl ++ "?page=" ++ toString (s.currentPage - 1) ++ "&size=" ++ toString n
          ++ "&sort=createdDate,desc"
          ++ jsAnd s.searchValue ("&search=" ++ p.searchKey ++ "=like=" ++ s.searchValue
              ++ ",description=like=" ++ s.searchValue)]) := by
  refine ⟨fun page h => ?_, fun n h => ?_⟩
  · rw [dispatch_changePage p s page h]
    exact ⟨rfl, rfl, rfl⟩
  · rw [dispatch_changeRowsPerPage p s n h]
    exact ⟨rfl, rfl, rfl⟩

theorem pager_change_fetches_once_witness :
    (dispatch functionsProps initialState (.changePage 2)).2 =
      ["/function-library/read?page=1&size=5&sort=createdDate,desc"] ∧
    (dispatch functionsProps thirdPageState (.changeRowsPerPage 10)).2 =
      ["/function-library/read?page=2&size=10&sort=createdDate,desc"] :=
  ⟨((pager_change_fetches_once functionsProps initialState).1 2 (by decide)).2.2.trans
      (by decide),
   ((pager_change_fetches_once functionsProps thirdPageState).2 10 (by decide)).2.2.trans
      (by decide)⟩

/-- C6 (as stated, refuted): from a table on page 3, a page-size change to 10 leaves the
current page at 3, and the fetch that follows requests `page=2`, not `page=0`. -/
theorem rowsPerPageChange_keeps_page_counterexample :
    (handleRowsPerPageChange 10 thirdPageState).currentPage = 3 ∧
    (handleRowsPerPageChange 10 thirdPageState).currentPage ≠ 1 ∧
    (dispatch functionsProps thirdPageState (.changeRowsPerPage 10)).2 =
      ["/function-library/read?page=2&size=10&sort=createdDate,desc"] := by
  decide

/-- C6 (amended): a page-size change leaves the current page as it was: after
`handleRowsPerPageChange n` the page size is `n` and the current page is the held one, so
the fetch that follows a change of size requests the held page minus one with `size=n`;
it requests `page=0` when the held page was 1. -/
theorem rowsPerPageChange_keeps_page (p : Props) (s : TableState) (n : Nat)
    (h : n ≠ s.itemsPerPage) :
    (handleRowsPerPageChange n s).currentPage = s.currentPage ∧
    (handleRowsPerPageChange n s).itemsPerPage = n ∧
    (dispatch p s (.changeRowsPerPage n)).1.currentPage = s.currentPage ∧
    (dispatch p s (.changeRowsPerPage n)).2 =
      [p.fetchUrl ++ "?page=" ++ toString (s.currentPage - 1) ++ "&size=" ++ toString n
        ++ "&sort=createdDate,desc"
        ++ jsAnd s.searchValue ("&search=" ++ p.searchKey ++ "=like=" ++ s.searchValue
            ++ ",description=like=" ++ s.searchValue)] ∧
    (s.currentPage = 1 → toString (s.currentPage - 1) = "0") := by
  refine ⟨rfl, rfl, ?_, ?_, fun h1 => ?_⟩
  · rw [dispatch_changeRowsPerPage p s n h]
  · rw [dispatch_changeRowsPerPage p s n h]; rfl
  · rw [h1]; decide

theorem rowsPerPageChange_keeps_page_witness :
    (dispatch functionsProps initialState (.changeRowsPerPage 25)).1.currentPage = 1 ∧
    (dispatch functionsProps initialState (.changeRowsPerPage 25)).2 =
      ["/function-library/read?page=0&size=25&sort=createdDate,desc"] :=
  have h := rowsPerPageChange_keeps_page functionsProps initialState 25 (by decide)
  ⟨h.2.2.1, h.2.2.2.1.trans (by decide)⟩

/-! ## Settling a fetch -/

/-- C7 (the code departs from the claim): when the request of `fetchData` rejects, the
loading flag set by `setLoading(true)` is still `true` after the request has settled; it is
cleared only when the request resolves. -/
theorem fetchData_rejected_keeps_loading (p : Props) (s : TableState) :
    (∀ e : Rejection, (fetchDataRun p s (.error e)).loading = true) ∧
    (∀ page : PageEnvelope, (fetchDataRun p s (.ok page)).loading = false) ∧
    (fetchDataRun functionsProps initialState (.error (.error networkError))).loading = true :=
  ⟨fun _ => rfl, fun _ => rfl, rfl⟩

/-- C8: when the fetch fails, the held rows and total element count (indeed the whole
`data` state) are those held before the fetch was issued, and settling a failed request
changes nothing of the state held at that moment; when the fetch succeeds they are
replaced by the response envelope: rows are `content` in response order, the total is
`totalElements`. -/
theorem fetchData_outcome_data (p : Props) (s : TableState) :
    (∀ e : Rejection,
      currentItems (fetchDataRun p s (.error e)) = currentItems s ∧
      paginationTotalRows (fetchDataRun p s (.error e)) = paginationTotalRows s ∧
      (fetchDataRun p s (.error e)).data = s.data ∧
      fetchDataSettled s (getData (.error e)).1 = s) ∧
    (∀ page : PageEnvelope,
      currentItems (fetchDataRun p s (.ok page)) = some page.content ∧
      paginationTotalRows (fetchDataRun p s (.ok page)) = some page.totalElements) :=
  ⟨fun _ => ⟨rfl, rfl, rfl, rfl⟩, fun _ => ⟨rfl, rfl⟩⟩

/-! ## The response interceptor's error branch -/

theorem loginCalls_dispatchLoadingEvent (w d : Bool) (rest : List ApiEffect) :
    loginCalls (dispatchLoadingEvent w d ++ rest) = loginCalls rest := by
  cases w <;> simp [dispatchLoadingEvent, loginCalls]

theorem allHandlerCalls_dispatchLoadingEvent (w d : Bool) (rest : List ApiEffect) :
    allHandlerCalls (dispatchLoadingEvent w d ++ rest) = allHandlerCalls rest := by
  cases w <;> simp [dispatchLoadingEvent, allHandlerCalls]

theorem interceptor_of_unauthorized (hasWindow : Bool) (m : ApiModule) (error : AxiosError)
    (r : Response) (hr : error.response = some r) (h401 : r.status = 401) :
    responseErrorInterceptor hasWindow m error =
      (dispatchLoadingEvent hasWindow false ++ [.login], .response r) := by
  simp [responseErrorInterceptor, hr, h401]

theorem interceptor_of_other_status (hasWindow : Bool) (m : ApiModule) (error : AxiosError)
    (r : Response) (hr : error.response = some r) (hs : r.status ≠ 401) :
    responseErrorInterceptor hasWindow m error =
      (dispatchLoadingEvent hasWindow false ++ callHandler m (.response r), .response r) := by
  simp [responseErrorInterceptor, hr, hs]

/-- C9: for a failed request whose error carries a response with status 401, the
interceptor calls `authService.login` exactly once, makes no call of the registered
error handler, and rejects with the response object, not with the error itself. -/
theorem interceptor_unauthorized (hasWindow : Bool) (m : ApiModule) (error : AxiosError)
    (r : Response) (hr : error.response = some r) (h401 : r.status = 401) :
    loginCalls (responseErrorInterceptor hasWindow m error).1 = 1 ∧
    allHandlerCalls (responseErrorInterceptor hasWindow m error).1 = [] ∧
    (responseErrorInterceptor hasWindow m error).2 = .response r ∧
    (responseErrorInterceptor hasWindow m error).2 ≠ .error error := by
  rw [interceptor_of_unauthorized hasWindow m error r hr h401]
  refine ⟨?_, ?_, rfl, by simp⟩
  · rw [loginCalls_dispatchLoadingEvent]; rfl
  · rw [allHandlerCalls_dispatchLoadingEvent]; rfl

theorem interceptor_unauthorized_witness :
    loginCalls
      (responseErrorInterceptor true (setGlobalErrorHandler (some 7) ApiModule.init)
        unauthorizedError).1 = 1 ∧
    allHandlerCalls
      (responseErrorInterceptor true (setGlobalErrorHandler (some 7) ApiModule.init)
        unauthorizedError).1 = [] :=
  have h := interceptor_unauthorized true (setGlobalErrorHandler (some 7) ApiModule.init)
    unauthorizedError { status := 401, data := none } rfl rfl
  ⟨h.1, h.2.1⟩

theorem callHandlerRun_calls (m : ApiModule) (behaviour : HandlerBehaviour)
    (arg : HandlerArg) : (callHandlerRun m behaviour arg).1 = callHandler m arg := by
  unfold callHandlerRun callHandler
  cases m.errorHandler <;> rfl

/-- The actions of the interceptor are the same whether or not the handler call throws. -/
theorem responseErrorInterceptorRun_trace (hasWindow : Bool) (m : ApiModule)
    (behaviour : HandlerBehaviour) (error : AxiosError) :
    (responseErrorInterceptorRun hasWindow m behaviour error).1 =
      (responseErrorInterceptor hasWindow m error).1 := by
  unfold responseErrorInterceptorRun responseErrorInterceptor
  cases error.response with
  | none =>
    simp only []
    split <;> simp [callHandlerRun_calls]
  | some r =>
    simp only []
    split
    · rfl
    · split <;> simp [callHandlerRun_calls]

/-- When every handler call returns, the promise is rejected with the value given by
`responseErrorInterceptor`. -/
theorem responseErrorInterceptorRun_of_returns (hasWindow : Bool) (m : ApiModule)
    (behaviour : HandlerBehaviour) (error : AxiosError)
    (hb : ∀ h arg, behaviour h arg = .ok ()) :
    (responseErrorInterceptorRun hasWindow m behaviour error).2 =
      .rejected (responseErrorInterceptor hasWindow m error).2 := by
  have hc : ∀ arg, (callHandlerRun m behaviour arg).2 = none := by
    intro arg
    unfold callHandlerRun
    cases m.errorHandler with
    | none => rfl
    | some h => simp [hb h arg]
  unfold responseErrorInterceptorRun responseErrorInterceptor
  cases error.response with
  | none => simp [hc]
  | some r =>
    simp only []
    split
    · rfl
    · simp [hc]

theorem responseErrorInterceptorRun_other_status (hasWindow : Bool) (m : ApiModule)
    (behaviour : HandlerBehaviour) (error : AxiosError) (r : Response) (h : HandlerRef)
    (hr : error.response = some r) (hs : r.status ≠ 401) (hh : m.errorHandler = some h) :
    responseErrorInterceptorRun hasWindow m behaviour error =
      (dispatchLoadingEvent hasWindow false ++ [.callErrorHandler h (.response r)],
        match behaviour h (.response r) with
        | .ok _ => .rejected (.response r)
        | .error exception => .threw exception) := by
  simp only [responseErrorInterceptorRun, hr, callHandlerRun, hh]
  cases hb : behaviour h (.response r) <;> simp [hs]

/-- C10 (as stated, refuted): with the application's handler registered, a failed request
answered with status 500 and a body without a `response` property makes the interceptor
call the handler once with the response object; that call throws, so the promise ends
with the `TypeError` and is not rejected with the response object. -/
theorem interceptor_server_error_counterexample :
    plainServerError.response = some plainErrorResponse ∧
    plainErrorResponse.status ≠ 401 ∧
    allHandlerCalls
      (responseErrorInterceptorRun true (setGlobalErrorHandler (some 7) ApiModule.init)
        appHandlerBehaviour plainServerError).1 = [(7, .response plainErrorResponse)] ∧
    (responseErrorInterceptorRun true (setGlobalErrorHandler (some 7) ApiModule.init)
        appHandlerBehaviour plainServerError).2 =
      .threw "TypeError: Cannot read properties of undefined (reading 'message')" ∧
    (responseErrorInterceptorRun true (setGlobalErrorHandler (some 7) ApiModule.init)
        appHandlerBehaviour plainServerError).2 ≠ .rejected (.response plainErrorResponse) := by
  decide

/-- C10 (amended): for a failed request whose error carries a response with a status other
than 401, with handler `h` registered, the interceptor calls `h` exactly once, with the
response object (no call carries a message string), and never calls `authService.login`;
when that call returns the promise is rejected with the response object; when it throws,
the rejection is not reached and the promise ends with the exception thrown. -/
theorem interceptor_server_error_run (hasWindow : Bool) (m : ApiModule)
    (behaviour : HandlerBehaviour) (error : AxiosError) (r : Response) (h : HandlerRef)
    (hr : error.response = some r) (hs : r.status ≠ 401) (hh : m.errorHandler = some h) :
    allHandlerCalls (responseErrorInterceptorRun hasWindow m behaviour error).1
      = [(h, .response r)] ∧
    handlerCalls h (responseErrorInterceptorRun hasWindow m behaviour error).1
      = [.response r] ∧
    loginCalls (responseErrorInterceptorRun hasWindow m behaviour error).1 = 0 ∧
    (behaviour h (.response r) = .ok () →
      (responseErrorInterceptorRun hasWindow m behaviour error).2
        = .rejected (.response r)) ∧
    (∀ exception : String, behaviour h (.response r) = .error exception →
      (responseErrorInterceptorRun hasWindow m behaviour error).2 = .threw exception) := by
  rw [responseErrorInterceptorRun_other_status hasWindow m behaviour error r h hr hs hh]
  refine ⟨?_, ?_, ?_, fun hb => ?_, fun exception hb => ?_⟩
  · rw [allHandlerCalls_dispatchLoadingEvent]; rfl
  · cases hasWindow <;> simp [dispatchLoadingEvent, handlerCalls]
  · rw [loginCalls_dispatchLoadingEvent]; rfl
  · simp [hb]
  · simp [hb]

theorem interceptor_server_error_run_witness :
    (responseErrorInterceptorRun true (setGlobalErrorHandler (some 7) ApiModule.init)
        appHandlerBehaviour serverError).2 = .rejected (.response serverErrorResponse) ∧
    (responseErrorInterceptorRun true (setGlobalErrorHandler (some 7) ApiModule.init)
        appHandlerBehaviour plainServerError).2 =
      .threw "TypeError: Cannot read properties of undefined (reading 'message')" :=
  ⟨(interceptor_server_error_run true (setGlobalErrorHandler (some 7) ApiModule.init)
      appHandlerBehaviour serverError serverErrorResponse 7 rfl (by decide) rfl).2.2.2.1
      rfl,
   (interceptor_server_error_run true (setGlobalErrorHandler (some 7) ApiModule.init)
      appHandlerBehaviour plainServerError plainErrorResponse 7 rfl (by decide) rfl).2.2.2.2
      _ rfl⟩

theorem interceptor_of_no_response (hasWindow : Bool) (m : ApiModule) (error : AxiosError)
    (hr : error.response = none) :
    responseErrorInterceptor hasWindow m error =
      (dispatchLoadingEvent hasWindow false ++
        callHandler m (.message
          (if error.request then
            "No response received from server. Please check your network connection."
          else "Request setup error: " ++ error.message)),
        .error error) := by
  simp [responseErrorInterceptor, hr]

theorem callHandler_of_registered (m : ApiModule) (h : HandlerRef) (arg : HandlerArg)
    (hh : m.errorHandler = some h) : callHandler m arg = [.callErrorHandler h arg] := by
  simp [callHandler, hh]

theorem callHandler_of_unregistered (m : ApiModule) (arg : HandlerArg)
    (hh : m.errorHandler = none) : callHandler m arg = [] := by
  simp [callHandler, hh]

theorem allHandlerCalls_loading_call (w d : Bool) (h : HandlerRef) (arg : HandlerArg) :
    allHandlerCalls (dispatchLoadingEvent w d ++ [.callErrorHandler h arg]) = [(h, arg)] := by
  rw [allHandlerCalls_dispatchLoadingEvent]; rfl

theorem handlerCalls_loading_call_other (w d : Bool) (h g : HandlerRef) (arg : HandlerArg)
    (hne : g ≠ h) :
    handlerCalls g (dispatchLoadingEvent w d ++ [.callErrorHandler h arg]) = [] := by
  have hne2 : ¬ h = g := fun e => hne e.symm
  cases w <;> simp [dispatchLoadingEvent, handlerCalls, hne2]

/-- C11: for a failed request whose error carries no response, with handler `h`
registered: if the error carries a request, `h` is called exactly once, with the string
`No response received from server. Please check your network connection.`; otherwise `h`
is called exactly once, with `Request setup error: ` followed by the error's message; in
both cases the promise rejects with the original error object. -/
theorem interceptor_no_response (hasWindow : Bool) (m : ApiModule) (error : AxiosError)
    (h : HandlerRef) (hr : error.response = none) (hh : m.errorHandler = some h) :
    (error.request = true →
      allHandlerCalls (responseErrorInterceptor hasWindow m error).1 =
        [(h, .message
          "No response received from server. Please check your network connection.")]) ∧
    (error.request = false →
      allHandlerCalls (responseErrorInterceptor hasWindow m error).1 =
        [(h, .message ("Request setup error: " ++ error.message))]) ∧
    loginCalls (responseErrorInterceptor hasWindow m error).1 = 0 ∧
    (responseErrorInterceptor hasWindow m error).2 = .error error := by
  rw [interceptor_of_no_response hasWindow m error hr]
  refine ⟨fun hq => ?_, fun hq => ?_, ?_, rfl⟩
  · rw [callHandler_of_registered m h _ hh, allHandlerCalls_loading_call, hq]; rfl
  · rw [callHandler_of_registered m h _ hh, allHandlerCalls_loading_call, hq]; rfl
  · rw [callHandler_of_registered m h _ hh, loginCalls_dispatchLoadingEvent]; rfl

theorem interceptor_no_response_witness :
    allHandlerCalls
      (responseErrorInterceptor true (setGlobalErrorHandler (some 7) ApiModule.init)
        networkError).1 =
      [(7, .message
        "No response received from server. Please check your network connection.")] ∧
    allHandlerCalls
      (responseErrorInterceptor true (setGlobalErrorHandler (some 7) ApiModule.init)
        setupError).1 = [(7, .message "Request setup error: Invalid URL")] :=
  ⟨(interceptor_no_response true (setGlobalErrorHandler (some 7) ApiModule.init)
      networkError 7 rfl rfl).1 rfl,
   ((interceptor_no_response true (setGlobalErrorHandler (some 7) ApiModule.init)
      setupError 7 rfl rfl).2.1 rfl).trans (by decide)⟩

/-- The argument the interceptor passes to the handler for a failure that is not a 401:
the response object when there is one, otherwise the message. -/
theorem interceptor_calls_of_registered (hasWindow : Bool) (m : ApiModule)
    (error : AxiosError) (h : HandlerRef) (hh : m.errorHandler = some h)
    (hs : ∀ r, error.response = some r → r.status ≠ 401) :
    ∃ arg, (responseErrorInterceptor hasWindow m error).1 =
      dispatchLoadingEvent hasWindow false ++ [.callErrorHandler h arg] := by
  cases hr : error.response with
  | none =>
    rw [interceptor_of_no_response hasWindow m error hr, callHandler_of_registered m h _ hh]
    exact ⟨_, rfl⟩
  | some r =>
    rw [interceptor_of_other_status hasWindow m error r hr (hs r hr),
      callHandler_of_registered m h _ hh]
    exact ⟨_, rfl⟩

theorem interceptor_calls_of_unregistered (hasWindow : Bool) (m : ApiModule)
    (error : AxiosError) (hh : m.errorHandler = none) :
    allHandlerCalls (responseErrorInterceptor hasWindow m error).1 = [] := by
  cases hr : error.response with
  | none =>
    rw [interceptor_of_no_response hasWindow m error hr, callHandler_of_unregistered m _ hh,
      allHandlerCalls_dispatchLoadingEvent]
    rfl
  | some r =>
    by_cases hs : r.status = 401
    · rw [interceptor_of_unauthorized hasWindow m error r hr hs,
        allHandlerCalls_dispatchLoadingEvent]
      rfl
    · rw [interceptor_of_other_status hasWindow m error r hr hs,
        callHandler_of_unregistered m _ hh, allHandlerCalls_dispatchLoadingEvent]
      rfl

/-- C12: one handler is in effect at a time and the last registration wins: after
`setGlobalErrorHandler(h1)` followed by `setGlobalErrorHandler(h2)`, every failure that is
not a 401 makes exactly one handler call, which goes to `h2`, and none to `h1`; when no
handler was registered, or `null` was registered last, no handler is called and the
promise still rejects (with the response object or with the error). -/
theorem last_registration_wins (hasWindow : Bool) (m : ApiModule) (error : AxiosError)
    (h1 h2 : HandlerRef) :
    (setGlobalErrorHandler (some h2) (setGlobalErrorHandler (some h1) m)).errorHandler
      = some h2 ∧
    ((∀ r, error.response = some r → r.status ≠ 401) →
      (∃ arg, allHandlerCalls (responseErrorInterceptor hasWindow
          (setGlobalErrorHandler (some h2) (setGlobalErrorHandler (some h1) m)) error).1
            = [(h2, arg)]) ∧
      (h1 ≠ h2 → handlerCalls h1 (responseErrorInterceptor hasWindow
          (setGlobalErrorHandler (some h2) (setGlobalErrorHandler (some h1) m)) error).1
            = [])) ∧
    allHandlerCalls (responseErrorInterceptor hasWindow ApiModule.init error).1 = [] ∧
    allHandlerCalls
      (responseErrorInterceptor hasWindow (setGlobalErrorHandler none m) error).1 = [] ∧
    (∀ m2 : ApiModule, m2.errorHandler = none →
      (∃ r, error.response = some r ∧
        (responseErrorInterceptor hasWindow m2 error).2 = .response r) ∨
      (error.response = none ∧
        (responseErrorInterceptor hasWindow m2 error).2 = .error error)) := by
  refine ⟨rfl, fun hs => ?_, ?_, ?_, fun m2 _ => ?_⟩
  · obtain ⟨arg, ha⟩ := interceptor_calls_of_registered hasWindow
      (setGlobalErrorHandler (some h2) (setGlobalErrorHandler (some h1) m)) error h2 rfl hs
    rw [ha]
    exact ⟨⟨arg, allHandlerCalls_loading_call _ _ _ _⟩,
      fun hne => handlerCalls_loading_call_other _ _ _ _ _ hne⟩
  · exact interceptor_calls_of_unregistered hasWindow ApiModule.init error rfl
  · exact interceptor_calls_of_unregistered hasWindow (setGlobalErrorHandler none m) error rfl
  · cases hr : error.response with
    | none =>
      right
      rw [interceptor_of_no_response hasWindow m2 error hr]
      exact ⟨rfl, rfl⟩
    | some r =>
      left
      refine ⟨r, rfl, ?_⟩
      by_cases hs : r.status = 401
      · rw [interceptor_of_unauthorized hasWindow m2 error r hr hs]
      · rw [interceptor_of_other_status hasWindow m2 error r hr hs]

theorem last_registration_wins_witness :
    (∃ arg, allHandlerCalls (responseErrorInterceptor true
        (setGlobalErrorHandler (some 2) (setGlobalErrorHandler (some 1) ApiModule.init))
        serverError).1 = [(2, arg)]) ∧
    handlerCalls 1 (responseErrorInterceptor true
        (setGlobalErrorHandler (some 2) (setGlobalErrorHandler (some 1) ApiModule.init))
        serverError).1 = [] :=
  have h := (last_registration_wins true ApiModule.init serverError 1 2).2.1
    (fun r hr => by
      have : r = serverErrorResponse := (Option.some.inj hr).symm
      subst this
      decide)
  ⟨h.1, h.2 (by decide)⟩

/-! ## The application's global error handler -/

/-- C13: every payload the application's handler produces has color `error`, icon `error`
and title `Error`.  For a response argument with a truthy `data` whose `response` is an
object, the payload is produced with content, reason and info equal to that object's
`message`, `reason` and `errorCode`; for every argument without truthy `data`, a message
string in particular, the payload is produced with the argument itself as content and
`Unexpected Error` as reason and info. -/
theorem globalErrorHandler_payload :
    (∀ (e : HandlerArg) (payload : ErrorPayload), globalErrorHandler e = .ok payload →
      payload.color = "error" ∧ payload.icon = "error" ∧ payload.title = "Error") ∧
    (∀ (r : Response) (body : ErrorBody) (detail : ErrorDetail),
      r.data = some body → body.response = some detail →
      globalErrorHandler (.response r) =
        .ok { color := "error", icon := "error", title := "Error",
              reason := detail.reason, content := .field detail.message,
              info := detail.errorCode }) ∧
    (∀ e : HandlerArg, handlerArgData e = none →
      globalErrorHandler e =
        .ok { color := "error", icon := "error", title := "Error",
              reason := some "Unexpected Error", content := .argument e,
              info := some "Unexpected Error" }) ∧
    (∀ m : String,
      globalErrorHandler (.message m) =
        .ok { color := "error", icon := "error", title := "Error",
              reason := some "Unexpected Error", content := .argument (.message m),
              info := some "Unexpected Error" }) := by
  refine ⟨fun e payload h => ?_, fun r body detail hd hb => ?_, fun e he => ?_, fun m => rfl⟩
  · unfold globalErrorHandler at h
    cases hd : handlerArgData e with
    | none =>
      rw [hd] at h
      cases h
      exact ⟨rfl, rfl, rfl⟩
    | some body =>
      rw [hd] at h
      cases hb : body.response with
      | none => simp [hb] at h
      | some detail =>
        simp only [hb] at h
        cases h
        exact ⟨rfl, rfl, rfl⟩
  · simp [globalErrorHandler, handlerArgData, hd, hb, defaultErrorOpts]
  · simp [globalErrorHandler, he, defaultErrorOpts]

theorem globalErrorHandler_payload_witness :
    globalErrorHandler (.response serverErrorResponse) =
      .ok { color := "error", icon := "error", title := "Error",
            reason := some "NOT_FOUND", content := .field (some "Rule not found"),
            info := some "E404" } ∧
    globalErrorHandler (.response { status := 502, data := none }) =
      .ok { color := "error", icon := "error", title := "Error",
            reason := some "Unexpected Error",
            content := .argument (.response { status := 502, data := none }),
            info := some "Unexpected Error" } :=
  ⟨globalErrorHandler_payload.2.1 serverErrorResponse
      ⟨some ⟨some "Rule not found", some "NOT_FOUND", some "E404"⟩⟩
      ⟨some "Rule not found", some "NOT_FOUND", some "E404"⟩ rfl rfl,
   globalErrorHandler_payload.2.2.1 (.response { status := 502, data := none }) rfl⟩

/-! ## The request interceptor -/

theorem getEntry_setEntry_same (key value : String) (obj : JsObject) :
    getEntry key (setEntry key value obj) = some value := by
  induction obj with
  | nil => simp [setEntry, getEntry]
  | cons kv rest ih =>
    obtain ⟨k, v⟩ := kv
    by_cases hk : k = key
    · simp [setEntry, getEntry, hk]
    · simp [setEntry, getEntry, hk, ih]

theorem getEntry_setEntry_other (key other value : String) (obj : JsObject)
    (hne : other ≠ key) :
    getEntry other (setEntry key value obj) = getEntry other obj := by
  have hne2 : ¬ key = other := fun e => hne e.symm
  induction obj with
  | nil => simp [setEntry, getEntry, hne2]
  | cons kv rest ih =>
    obtain ⟨k, v⟩ := kv
    by_cases hk : k = key
    · subst hk
      simp [setEntry, getEntry, hne2]
    · by_cases hk2 : k = other
      · subst hk2
        simp [setEntry, getEntry, hk]
      · simp [setEntry, getEntry, hk, hk2, ih]

/-- C14 (as stated, refuted): with no signed-in user the request interceptor returns the
configuration as it received it, without any `Authorization` header. -/
theorem requestInterceptor_without_user :
    (requestInterceptor true none readRequest).1 = readRequest ∧
    getEntry "Authorization" (requestInterceptor true none readRequest).1.headers = none := by
  decide

/-- C14 (amended): when the session has a user with a non-empty `access_token`, the request
interceptor returns a configuration whose `Authorization` header is `Bearer ` followed by
that token, every other header and the endpoint being unchanged; when there is no user, or
the token is empty, it returns the configuration unchanged. -/
theorem requestInterceptor_authorization (hasWindow : Bool) (config : RequestConfig) :
    (∀ u : User, u.access_token ≠ "" →
      getEntry "Authorization" (requestInterceptor hasWindow (some u) config).1.headers
        = some ("Bearer " ++ u.access_token) ∧
      (∀ name : String, name ≠ "Authorization" →
        getEntry name (requestInterceptor hasWindow (some u) config).1.headers
          = getEntry name config.headers) ∧
      (requestInterceptor hasWindow (some u) config).1.url = config.url) ∧
    (requestInterceptor hasWindow none config).1 = config ∧
    (requestInterceptor hasWindow (some { access_token := "" }) config).1 = config := by
  refine ⟨fun u hu => ?_, rfl, rfl⟩
  have he : u.access_token.isEmpty = false := by
    cases hb : u.access_token.isEmpty
    · rfl
    · exact absurd ((String.isEmpty_iff _).1 hb) hu
  simp only [requestInterceptor, getAccessToken, he]
  exact ⟨getEntry_setEntry_same _ _ _, fun name hn => getEntry_setEntry_other _ _ _ _ hn, rfl⟩

theorem requestInterceptor_authorization_witness :
    getEntry "Authorization"
      (requestInterceptor true (some { access_token := "abc" }) readRequest).1.headers
        = some "Bearer abc" :=
  (((requestInterceptor_authorization true readRequest).1 { access_token := "abc" }
    (by decide)).1).trans (by decide)

/-! ## The generic dialog -/

/-- C15: `showDialog(opts, item)` replaces the held configuration: from every prior state
the dialog is open afterwards, its options are exactly `opts`, its entity is exactly the
`item` argument (`undefined` when none is passed), and nothing of the prior state
survives, the result being the same from every prior state. -/
theorem showDialog_replaces (opts : DialogOptions) (item : ItemRef) (s : DialogState) :
    (showDialog opts item s).dialog = true ∧
    (showDialog opts item s).dialogOptions = opts ∧
    (showDialog opts item s).item = item ∧
    (showDialog opts .undefined s).item = .undefined ∧
    (∀ t : DialogState, showDialog opts item t = showDialog opts item s) :=
  ⟨rfl, rfl, rfl, rfl, fun _ => rfl⟩

/-- C16 (as stated, refuted): after the edit dialog was shown with an entity and then
closed, the dialog is hidden but the held entity is still that entity, not `null`; the
same holds after a submission. -/
theorem close_keeps_item_counterexample :
    (close (showDialog editDialogOpts (.entity sampleRow) DialogState.init)).dialog = false ∧
    (close (showDialog editDialogOpts (.entity sampleRow) DialogState.init)).item
      = .entity sampleRow ∧
    (close (showDialog editDialogOpts (.entity sampleRow) DialogState.init)).item ≠ .null ∧
    (onSubmit none [] (showDialog editDialogOpts (.entity sampleRow) DialogState.init)).1.item
      ≠ .null := by
  decide

/-- C16 (amended): after `close` (cancel button, outside click, or after a submission whose
`submitAction` call returned) the dialog is hidden, and the held entity and the held
options are those held before; the entity is replaced only by the next `showDialog`. -/
theorem close_hides_keeps_item (s : DialogState) :
    (close s).dialog = false ∧
    (close s).item = s.item ∧
    (close s).dialogOptions = s.dialogOptions ∧
    (∀ (entries : List (String × String)), (onSubmit none entries s).1 = close s) ∧
    (∀ (action : JsObject → CallOutcome) (entries : List (String × String)) (b : Bool),
      action (fromEntries entries) = .returned b →
      (onSubmit (some action) entries s).1 = close s) := by
  refine ⟨rfl, rfl, rfl, fun _ => rfl, fun action entries b h => ?_⟩
  simp [onSubmit, h]

theorem close_hides_keeps_item_witness :
    (onSubmit (some fun _ => .returned true) [("name", "Foo")]
      (showDialog editDialogOpts (.entity sampleRow) DialogState.init)).1
      = close (showDialog editDialogOpts (.entity sampleRow) DialogState.init) :=
  (close_hides_keeps_item (showDialog editDialogOpts (.entity sampleRow) DialogState.init)).2.2.2.2
    (fun _ => .returned true) [("name", "Foo")] true rfl

theorem getEntry_append (key : String) (xs ys : JsObject) :
    getEntry key (xs ++ ys) = (getEntry key xs).or (getEntry key ys) := by
  induction xs with
  | nil => simp [getEntry]
  | cons kv rest ih =>
    obtain ⟨k, v⟩ := kv
    by_cases hk : k = key
    · simp [getEntry, hk]
    · simp [getEntry, hk, ih]

theorem getEntry_setEntry (key other value : String) (obj : JsObject) :
    getEntry other (setEntry key value obj) =
      if key = other then some value else getEntry other obj := by
  by_cases h : key = other
  · subst h
    simp [getEntry_setEntry_same]
  · simp [h, getEntry_setEntry_other key other value obj (fun e => h e.symm)]

theorem getEntry_foldl_setEntry (key : String) (entries : List (String × String))
    (acc : JsObject) :
    getEntry key (entries.foldl (fun obj entry => setEntry entry.1 entry.2 obj) acc) =
      (getEntry key entries.reverse).or (getEntry key acc) := by
  induction entries generalizing acc with
  | nil => simp [getEntry]
  | cons e rest ih =>
    obtain ⟨k, v⟩ := e
    rw [List.foldl_cons, ih, List.reverse_cons, getEntry_append, getEntry_setEntry]
    by_cases hk : k = key
    · cases hr : getEntry key rest.reverse <;> simp [getEntry, hk]
    · cases hr : getEntry key rest.reverse <;> simp [getEntry, hk]

/-- The object built by `fromEntries` maps every name to the value of the last entry of
that name. -/
theorem getEntry_fromEntries (key : String) (entries : List (String × String)) :
    getEntry key (fromEntries entries) = getEntry key entries.reverse := by
  unfold fromEntries
  rw [getEntry_foldl_setEntry]
  cases getEntry key entries.reverse <;> simp [getEntry]

/-- C17 (as stated, refuted): with a `submitAction` whose call throws, the submit handler
calls it once and never reaches `close()`: the dialog is still open afterwards. -/
theorem onSubmit_throwing_action_stays_open :
    (onSubmit (some fun _ => .threw) [("name", "Foo")]
      (showDialog editDialogOpts (.entity sampleRow) DialogState.init)).1.dialog = true ∧
    submitCalls (onSubmit (some fun _ => .threw) [("name", "Foo")]
      (showDialog editDialogOpts (.entity sampleRow) DialogState.init)).2
        = [[("name", "Foo")]] := by
  decide

/-- C17 (amended): on every form submission, a supplied `submitAction` is called exactly
once, with the object mapping each field name to the value of the last form entry of that
name; when that call returns the dialog is closed afterwards, whether the work it started
fails later or not; when the call throws the state is left as it was (the dialog stays
open); when no `submitAction` is supplied nothing is called and the dialog is closed. -/
theorem onSubmit_closes_when_call_returns (entries : List (String × String))
    (s : DialogState) :
    (∀ (action : JsObject → CallOutcome) (failsLater : Bool),
      action (fromEntries entries) = .returned failsLater →
      (onSubmit (some action) entries s).1.dialog = false ∧
      submitCalls (onSubmit (some action) entries s).2 = [fromEntries entries]) ∧
    (∀ (action : JsObject → CallOutcome),
      action (fromEntries entries) = .threw →
      (onSubmit (some action) entries s).1 = s ∧
      submitCalls (onSubmit (some action) entries s).2 = [fromEntries entries]) ∧
    (onSubmit none entries s).1.dialog = false ∧
    submitCalls (onSubmit none entries s).2 = [] ∧
    (∀ key : String, getEntry key (fromEntries entries) = getEntry key entries.reverse) := by
  refine ⟨fun action b h => ?_, fun action h => ?_, rfl, rfl,
    fun key => getEntry_fromEntries key entries⟩
  · simp [onSubmit, h, submitCalls, close, «show»]
  · simp [onSubmit, h, submitCalls]

theorem onSubmit_closes_when_call_returns_witness :
    (onSubmit (some fun _ => .returned true) [("name", "Foo"), ("description", "Bar")]
      (showDialog editDialogOpts (.entity sampleRow) DialogState.init)).1.dialog = false ∧
    (onSubmit (some fun _ => .threw) [("name", "Foo"), ("description", "Bar")]
      (showDialog editDialogOpts (.entity sampleRow) DialogState.init)).1
        = showDialog editDialogOpts (.entity sampleRow) DialogState.init :=
  have h := onSubmit_closes_when_call_returns [("name", "Foo"), ("description", "Bar")]
    (showDialog editDialogOpts (.entity sampleRow) DialogState.init)
  ⟨(h.1 (fun _ => .returned true) true rfl).1, (h.2.1 (fun _ => .threw) rfl).1⟩

/-! ## Screen actions: delete, create and edit -/

theorem deleteCalls_notifyThenRefresh (scr : Screen) (notifiMounted : Bool)
    (title content : String) :
    deleteCalls (notifyThenRefresh scr notifiMounted title content) = [] := by
  cases notifiMounted <;> rfl

theorem refreshCalls_notifyThenRefresh (scr : Screen) (notifiMounted : Bool)
    (title content : String) :
    refreshCalls (notifyThenRefresh scr notifiMounted title content) = 1 := by
  cases notifiMounted <;> rfl

theorem snackCalls_notifyThenRefresh (scr : Screen) (notifiMounted : Bool)
    (title content : String) :
    snackCalls (notifyThenRefresh scr notifiMounted title content) =
      [DataModel.message scr.success title content .dateNow] := by
  cases notifiMounted <;> rfl

/-- C18: delete is gated on confirmation: `handleDelete` issues no DELETE call before the
prompt has settled; when the prompt resolves it issues exactly one, to
`<resource>/delete/<row id>`, as its first action after the prompt; when the prompt
rejects it issues none. -/
theorem handleDelete_gated (scr : Screen) (notifiMounted : Bool) (item : Row)
    (outcome : Except Rejection Unit) :
    deleteCalls (handleDeleteStart item) = [] ∧
    deleteCalls (handleDelete scr notifiMounted item .accepted outcome).1 =
      [scr.resource ++ "/delete/" ++ item.id] ∧
    (handleDelete scr notifiMounted item .accepted outcome).1.take 2 =
      [.confirm ("This will permanently delete " ++ item.id ++ "."),
       .deleteData (scr.resource ++ "/delete/" ++ item.id)] ∧
    deleteCalls (handleDelete scr notifiMounted item .declined outcome).1 = [] ∧
    deleteCalls (handleDelete helpersScreen notifiMounted item .accepted outcome).1 =
      ["/rule-helper/delete/" ++ item.id] ∧
    (∀ success : Notice,
      deleteCalls (handleDelete (functionsScreen success) notifiMounted item .accepted
        outcome).1 = ["/function-library/delete/" ++ item.id]) := by
  have key : ∀ scr : Screen,
      deleteCalls (handleDelete scr notifiMounted item .accepted outcome).1 =
        [scr.resource ++ "/delete/" ++ item.id] := by
    intro scr
    have h := deleteCalls_notifyThenRefresh scr notifiMounted "Delete Request"
      "Delete request is completed!"
    simp only [handleDelete, handleDeleteStart, handleDeleteConfirmSettled, deleteCalls,
      List.cons_append, List.nil_append, List.filterMap_cons] at h ⊢
    rw [h]
  exact ⟨rfl, key scr, rfl, rfl, key helpersScreen, fun success => key (functionsScreen success)⟩

/-- C19: the table's `deleteAction` issues no fetch before the promise returned by
`handleDelete` has settled; it issues exactly one fetch when that promise resolves, and
none when it rejects (or never settles). -/
theorem deleteAction_fetches (p : Props) (clicked current : TableState) :
    (deleteActionStart clicked).2 = [] ∧
    (deleteAction p clicked current .resolved).2 = [fetchEndpoint p clicked] ∧
    (deleteAction p clicked current .resolved).2.length = 1 ∧
    (deleteAction p clicked current .rejected).2 = [] ∧
    (deleteAction p clicked current .pending).2 = [] :=
  ⟨rfl, rfl, rfl, rfl, rfl⟩

/-- C20: on both screens, when the POST (create) or PATCH (edit) call succeeds, the success
notification is requested and after it the table's refresh is invoked, exactly once; when
the call fails the error is logged and nothing else happens: no notification is requested
and the table is not refreshed. -/
theorem submitAction_outcomes (scr : Screen) (notifiMounted : Bool) (formJson : JsObject) :
    (createSubmitAction scr notifiMounted formJson (.ok ()) =
      .postData (scr.resource ++ "/create") (payloadOf scr.createFields formJson) ::
        (showSnack notifiMounted
          (DataModel.message scr.success "Create Request" "Create request is completed."
            .dateNow) ++ [.refresh])) ∧
    (editSubmitAction scr notifiMounted formJson (.ok ()) =
      .patchData (scr.resource ++ "/update") (payloadOf scr.editFields formJson) ::
        (showSnack notifiMounted
          (DataModel.message scr.success "Edit Request" "Edit request is completed."
            .dateNow) ++ [.refresh])) ∧
    refreshCalls (createSubmitAction scr notifiMounted formJson (.ok ())) = 1 ∧
    refreshCalls (editSubmitAction scr notifiMounted formJson (.ok ())) = 1 ∧
    snackCalls (createSubmitAction scr notifiMounted formJson (.ok ())) =
      [{ scr.success with title := "Create Request",
                          content := "Create request is completed.", info := .dateNow }] ∧
    snackCalls (editSubmitAction scr notifiMounted formJson (.ok ())) =
      [{ scr.success with title := "Edit Request",
                          content := "Edit request is completed.", info := .dateNow }] ∧
    (∀ e : Rejection,
      createSubmitAction scr notifiMounted formJson (.error e) =
        [.postData (scr.resource ++ "/create") (payloadOf scr.createFields formJson),
         .consoleError (some e)] ∧
      editSubmitAction scr notifiMounted formJson (.error e) =
        [.patchData (scr.resource ++ "/update") (payloadOf scr.editFields formJson),
         .consoleError (some e)] ∧
      refreshCalls (createSubmitAction scr notifiMounted formJson (.error e)) = 0 ∧
      refreshCalls (editSubmitAction scr notifiMounted formJson (.error e)) = 0 ∧
      snackCalls (createSubmitAction scr notifiMounted formJson (.error e)) = [] ∧
      snackCalls (editSubmitAction scr notifiMounted formJson (.error e)) = []) ∧
    helpersScreen.success.color = "success" := by
  refine ⟨rfl, rfl, ?_, ?_, ?_, ?_, fun e => ⟨rfl, rfl, rfl, rfl, rfl, rfl⟩, rfl⟩
  · cases notifiMounted <;> rfl
  · cases notifiMounted <;> rfl
  · cases notifiMounted <;> rfl
  · cases notifiMounted <;> rfl

/-! ## The edit dialog bodies -/

/-- C21: opened with an entity, the edit form renders `id` and `name` as read-only text
fields holding the entity's id and name, and every editable control (description, the code
editor for `mvlCode` on the functions screen, `packageUrl` and `packagePath` on the helpers
screen, category, container name) with the entity's value for its field; a field the
entity lacks is rendered with the empty string. -/
theorem editDialogBody_prepopulated (row : Row) (code : String) :
    Functions.EditDialogBody (.entity row) code =
      [ { kind := .textField true, name := some "id", value := row.id, required := true },
        { kind := .textField true, name := some "name",
          value := orEmpty (getEntry "name" row.fields), required := true },
        { kind := .textField false, name := some "description",
          value := orEmpty (getEntry "description" row.fields), required := true },
        { kind := .codeEditor, name := none,
          value := orEmpty (getEntry "mvlCode" row.fields), required := true },
        { kind := .hiddenInput, name := some "mvlCode", value := code, required := false },
        { kind := .textField false, name := some "category",
          value := orEmpty (getEntry "category" row.fields), required := false },
        { kind := .textField false, name := some "containerName",
          value := orEmpty (getEntry "containerName" row.fields), required := false } ] ∧
    Helpers.EditDialogBody (.entity row) =
      [ { kind := .textField true, name := some "id", value := row.id, required := true },
        { kind := .textField true, name := some "name",
          value := orEmpty (getEntry "name" row.fields), required := true },
        { kind := .textField false, name := some "description",
          value := orEmpty (getEntry "description" row.fields), required := true },
        { kind := .textField false, name := some "packageUrl",
          value := orEmpty (getEntry "packageUrl" row.fields), required := true },
        { kind := .textField false, name := some "packagePath",
          value := orEmpty (getEntry "packagePath" row.fields), required := true },
        { kind := .textField false, name := some "containerName",
          value := orEmpty (getEntry "containerName" row.fields), required := false } ] ∧
    (∀ field value : String, getEntry field row.fields = some value →
      orEmpty (getEntry field row.fields) = value) ∧
    (∀ field : String, getEntry field row.fields = none →
      orEmpty (getEntry field row.fields) = "") := by
  refine ⟨?_, ?_, fun field value h => by rw [h]; rfl, fun field h => by rw [h]; rfl⟩
  · simp [Functions.EditDialogBody, entityTextField, itemField, orEmpty]
  · simp [Helpers.EditDialogBody, entityTextField, itemField, orEmpty]

theorem editDialogBody_prepopulated_witness :
    orEmpty (getEntry "description" sampleFunction.fields) = "First function" ∧
    orEmpty (getEntry "category" sampleFunction.fields) = "" :=
  have h := editDialogBody_prepopulated sampleFunction Functions.initialCode
  ⟨h.2.2.1 "description" "First function" (by decide), h.2.2.2 "category" (by decide)⟩

theorem editFormJson_entries (item : ItemRef) (code : String) (typed : JsObject) :
    Functions.editFormJson item code typed =
      [ ("id", orEmpty (itemField item "id")),
        ("name", orEmpty (itemField item "name")),
        ("description",
          (getEntry "description" typed).getD (orEmpty (itemField item "description"))),
        ("mvlCode", code),
        ("category", (getEntry "category" typed).getD (orEmpty (itemField item "category"))),
        ("containerName",
          (getEntry "containerName" typed).getD
            (orEmpty (itemField item "containerName"))) ] := by
  simp [Functions.editFormJson, Functions.EditDialogBody, entityTextField, formEntries,
    fromEntries, setEntry]

theorem submitCalls_onSubmit (action : JsObject → CallOutcome)
    (entries : List (String × String)) (s : DialogState) :
    submitCalls (onSubmit (some action) entries s).2 = [fromEntries entries] := by
  cases h : action (fromEntries entries) <;> simp [onSubmit, h, submitCalls]

theorem EditDialog.step_code (opts : DialogOptions) (s : EditDialog) (ev : EditDialogEvent)
    (h : ev.isCodeChange = false) : (EditDialog.step opts s ev).1.code = s.code := by
  cases ev <;> simp_all [EditDialog.step, EditDialogEvent.isCodeChange]

theorem EditDialog.foldl_code (opts : DialogOptions) (events : List EditDialogEvent)
    (acc : EditDialog × List JsObject) (h : ∀ ev ∈ events, ev.isCodeChange = false) :
    (events.foldl
      (fun acc ev =>
        ((EditDialog.step opts acc.1 ev).1, acc.2 ++ (EditDialog.step opts acc.1 ev).2))
      acc).1.code = acc.1.code := by
  induction events generalizing acc with
  | nil => rfl
  | cons ev rest ih =>
    rw [List.foldl_cons, ih _ (fun e he => h e (List.mem_cons_of_mem _ he))]
    exact EditDialog.step_code opts acc.1 ev (h ev (List.mem_cons_self _ _))

theorem EditDialog.run_code (opts : DialogOptions) (s : EditDialog)
    (events : List EditDialogEvent) (h : ∀ ev ∈ events, ev.isCodeChange = false) :
    (EditDialog.run opts s events).1.code = s.code :=
  EditDialog.foldl_code opts events (s, []) h

/-- C27 (as stated, refuted): the edit dialog is opened for one entity, the code editor is
changed and the dialog cancelled; it is then opened for another entity and submitted
without any change of the code editor.  The form mapping handed to `editSubmitAction`
carries the text typed in the earlier session as `mvlCode`, not the empty string. -/
theorem edit_submit_stale_code_counterexample :
    ((EditDialog.run editDialogOpts EditDialog.init
        [.showFor otherFunction, .codeChange "return 2;", .cancel,
         .showFor sampleFunction, .submit [] false]).2.map (getEntry "mvlCode"))
      = [some "return 2;"] ∧
    ((EditDialog.run editDialogOpts EditDialog.init
        [.showFor otherFunction, .codeChange "return 2;", .cancel,
         .showFor sampleFunction, .submit [] false]).2.map (getEntry "id"))
      = [some "abc-123"] ∧
    ([EditDialogEvent.showFor sampleFunction, .submit [] false].all
      fun ev => !ev.isCodeChange) = true ∧
    ((EditDialog.run editDialogOpts EditDialog.init
        [.showFor otherFunction, .codeChange "return 2;", .cancel,
         .showFor sampleFunction, .submit [] false]).2.map (getEntry "mvlCode"))
      ≠ [some ""] := by
  decide

/-- C27 (amended): on the functions screen, for every entity shown in the edit dialog and
whatever was typed into the text fields, a submission hands `submitAction` a form mapping
whose `mvlCode` is the value of the dialog's `code` state, not the entity's `mvlCode` that
the editor shows, and the PATCH payload sent to `/function-library/update` carries that
value.  The state is the empty string as long as the code editor has never been changed
since the dialog was mounted; after a change it is the text last entered, which survives
closing, reopening (also for another entity) and submitting. -/
theorem edit_submit_sends_code_state (opts : DialogOptions) (s : EditDialog) (row : Row)
    (typed : JsObject) (failsLater : Bool) (success : Notice) (notifiMounted : Bool)
    (outcome : Except Rejection Unit) (hitem : s.dialog.item = .entity row) :
    (EditDialog.step opts s (.submit typed failsLater)).2 =
      [Functions.editFormJson (.entity row) s.code typed] ∧
    getEntry "mvlCode" (Functions.editFormJson (.entity row) s.code typed) = some s.code ∧
    (editSubmitAction (functionsScreen success) notifiMounted
        (Functions.editFormJson (.entity row) s.code typed) outcome).head?
      = some (.patchData "/function-library/update"
          [ ("id", some row.id),
            ("name", some (orEmpty (getEntry "name" row.fields))),
            ("description",
              some ((getEntry "description" typed).getD
                (orEmpty (getEntry "description" row.fields)))),
            ("mvlCode", some s.code),
            ("category",
              some ((getEntry "category" typed).getD
                (orEmpty (getEntry "category" row.fields)))),
            ("containerName",
              some ((getEntry "containerName" typed).getD
                (orEmpty (getEntry "containerName" row.fields)))) ]) ∧
    (∀ value : String, getEntry "mvlCode" row.fields = some value →
      { kind := .codeEditor, name := none, value := value, required := true }
        ∈ Functions.EditDialogBody (.entity row) s.code) ∧
    (∀ events : List EditDialogEvent, (∀ ev ∈ events, ev.isCodeChange = false) →
      (EditDialog.run opts EditDialog.init events).1.code = "") ∧
    (∀ (value : String) (events : List EditDialogEvent),
      (∀ ev ∈ events, ev.isCodeChange = false) →
      (EditDialog.run opts (EditDialog.step opts s (.codeChange value)).1 events).1.code
        = value) := by
  have hjson := editFormJson_entries (.entity row) s.code typed
  refine ⟨?_, ?_, ?_, fun value hv => ?_, fun events h => ?_, fun value events h => ?_⟩
  · simp only [EditDialog.step, hitem]
    exact submitCalls_onSubmit _ _ _
  · rw [hjson]
    simp [getEntry]
  · rw [hjson]
    simp [editSubmitAction, functionsScreen, payloadOf, getEntry, itemField, orEmpty]
  · simp [Functions.EditDialogBody, entityTextField, itemField, hv, orEmpty]
  · rw [EditDialog.run_code opts EditDialog.init events h]
    rfl
  · rw [EditDialog.run_code opts _ events h]
    rfl

theorem edit_submit_sends_code_state_witness :
    (EditDialog.step editDialogOpts
        (EditDialog.run editDialogOpts EditDialog.init [.showFor sampleFunction]).1
        (.submit [] false)).2 =
      [Functions.editFormJson (.entity sampleFunction) "" []] ∧
    (EditDialog.run editDialogOpts EditDialog.init
        [.showFor sampleFunction, .cancel, .showFor otherFunction]).1.code = "" :=
  have h := edit_submit_sends_code_state editDialogOpts
    (EditDialog.run editDialogOpts EditDialog.init [.showFor sampleFunction]).1
    sampleFunction [] false DataModel.SUCCESS true (.ok ()) rfl
  ⟨h.1, h.2.2.2.2.1 [.showFor sampleFunction, .cancel, .showFor otherFunction] (by decide)⟩

/-! ## Row actions and columns -/

/-- C22: the Actions cell holds the edit, delete, view and draw affordance exactly when
`handleEdit`, `handleDelete`, `handleView` and `handleDraw` respectively was supplied, in
that order, followed in every case by the copy-id affordance; the Actions column is the
first column and the caller's columns follow in their given order. -/
theorem actionsCell_gated (h : RowHandlers) (row : Row) (cols : List ColumnDesc) :
    (.edit ∈ actionsCell h row ↔ h.handleEdit = true) ∧
    (.delete ∈ actionsCell h row ↔ h.handleDelete = true) ∧
    (.view ∈ actionsCell h row ↔ h.handleView = true) ∧
    (.draw ∈ actionsCell h row ↔ h.handleDraw = true) ∧
    .copyId row.id (row.id.take 8 ++ "...") ∈ actionsCell h row ∧
    actionsCell h row =
      [Affordance.edit, .delete, .view, .draw].filter h.supplies ++
        [.copyId row.id (row.id.take 8 ++ "...")] ∧
    columns cols = .actions true :: cols.map .caller ∧
    (columns cols).head? = some (.actions true) ∧
    (columns cols).tail = cols.map .caller := by
  obtain ⟨a, b, c, d⟩ := h
  refine ⟨?_, ?_, ?_, ?_, ?_, ?_, rfl, rfl, rfl⟩ <;>
    cases a <;> cases b <;> cases c <;> cases d <;>
      simp [actionsCell, RowHandlers.supplies]

theorem actionsCell_gated_witness :
    actionsCell screenHandlers sampleRow = [.edit, .delete, .copyId "abc-123" "abc-123..."] ∧
    Affordance.view ∉ actionsCell screenHandlers sampleRow :=
  have h := actionsCell_gated screenHandlers sampleRow []
  ⟨h.2.2.2.2.2.1.trans (by decide), fun hv => absurd (h.2.2.1.1 hv) (by decide)⟩

/-! ## The global loading signal -/

theorem appLoading_dispatchLoadingEvent (flag detail : Bool) (rest : List ApiEffect) :
    appLoading flag (dispatchLoadingEvent true detail ++ rest) = appLoading detail rest := by
  simp [appLoading, dispatchLoadingEvent, handleLoading]

theorem appLoading_callHandler (flag : Bool) (m : ApiModule) (arg : HandlerArg) :
    appLoading flag (callHandler m arg) = flag := by
  unfold callHandler
  cases m.errorHandler <;> rfl

theorem appLoading_trace (flag : Bool) (ev : RequestEvent) :
    appLoading flag ev.trace = ev.carried := by
  cases ev with
  | start user config => rfl
  | complete => rfl
  | fail m error =>
    simp only [RequestEvent.trace, RequestEvent.carried]
    cases hr : error.response with
    | none =>
      rw [interceptor_of_no_response true m error hr, appLoading_dispatchLoadingEvent,
        appLoading_callHandler]
    | some r =>
      by_cases hs : r.status = 401
      · rw [interceptor_of_unauthorized true m error r hr hs, appLoading_dispatchLoadingEvent]
        rfl
      · rw [interceptor_of_other_status true m error r hr hs,
          appLoading_dispatchLoadingEvent, appLoading_callHandler]

/-- C23: the loading flag is a boolean without a counter: after any non-empty sequence of
request starts and completions it equals the value carried by the last event (`true` for a
start, `false` for a completion, with a response or with an error), whatever it was
before; for two overlapping requests the sequence start A, start B, complete A leaves the
flag `false` although B is still pending. -/
theorem loading_follows_last_event (loading : Bool) (events : List RequestEvent)
    (last : RequestEvent) (userA userB : Option User) (configA configB : RequestConfig) :
    loadingAfter loading (events ++ [last]) = last.carried ∧
    loadingAfter loading [] = loading ∧
    loadingAfter loading
      [.start userA configA, .start userB configB, .complete] = false ∧
    (∀ (m : ApiModule) (error : AxiosError),
      loadingAfter loading
        [.start userA configA, .start userB configB, .fail m error] = false) := by
  refine ⟨?_, rfl, rfl, fun m error => ?_⟩
  · simp [loadingAfter, List.foldl_append, appLoading_trace]
  · simp [loadingAfter, appLoading_trace, RequestEvent.carried]

/-! ## Delete: notification, refresh and the returned promise -/

theorem handleDelete_accepted_trace (scr : Screen) (notifiMounted : Bool) (row : Row)
    (outcome : Except Rejection Unit) :
    (handleDelete scr notifiMounted row .accepted outcome).1 =
      .confirm ("This will permanently delete " ++ row.id ++ ".") ::
      .deleteData (scr.resource ++ "/delete/" ++ row.id) ::
      (showSnack notifiMounted
        (DataModel.message scr.success "Delete Request" "Delete request is completed!"
          .dateNow) ++ [.refresh]) :=
  rfl

/-- C24: on both screens, once a delete is confirmed, the success notification and the
table refresh follow the DELETE call at once, in the part of `handleDelete` that runs
before that call settles: the actions are the same whether the call later succeeds or
fails, one notification with content `Delete request is completed!` is requested and the
table is refreshed once in both cases. -/
theorem handleDelete_notifies_regardless (scr : Screen) (notifiMounted : Bool) (row : Row)
    (e : Rejection) :
    (handleDelete scr notifiMounted row .accepted (.error e)).1 =
      (handleDelete scr notifiMounted row .accepted (.ok ())).1 ∧
    (handleDelete scr notifiMounted row .accepted (.error e)).1 =
      handleDeleteStart row ++ handleDeleteConfirmSettled scr notifiMounted row .accepted ∧
    snackCalls (handleDelete scr notifiMounted row .accepted (.error e)).1 =
      [{ scr.success with title := "Delete Request",
                          content := "Delete request is completed!", info := .dateNow }] ∧
    refreshCalls (handleDelete scr notifiMounted row .accepted (.error e)).1 = 1 ∧
    snackCalls (handleDelete scr notifiMounted row .accepted (.ok ())).1 =
      [{ scr.success with title := "Delete Request",
                          content := "Delete request is completed!", info := .dateNow }] ∧
    refreshCalls (handleDelete scr notifiMounted row .accepted (.ok ())).1 = 1 ∧
    (notifiMounted = true →
      ScreenEffect.notificationShow
        { scr.success with title := "Delete Request",
                           content := "Delete request is completed!", info := .dateNow }
        ∈ (handleDelete scr notifiMounted row .accepted (.error e)).1) := by
  refine ⟨rfl, rfl, ?_, ?_, ?_, ?_, fun hm => ?_⟩
  · cases notifiMounted <;> rfl
  · cases notifiMounted <;> rfl
  · cases notifiMounted <;> rfl
  · cases notifiMounted <;> rfl
  · subst hm
    rw [handleDelete_accepted_trace]
    simp [showSnack, DataModel.message]

theorem handleDelete_notifies_regardless_witness :
    ScreenEffect.notificationShow
        { color := "success", icon := "success", title := "Delete Request",
          content := "Delete request is completed!", info := .dateNow }
      ∈ (handleDelete helpersScreen true sampleRow .accepted
          (.error (.error networkError))).1 :=
  (handleDelete_notifies_regardless helpersScreen true sampleRow (.error networkError)).2.2.2.2.2.2
    rfl

theorem refreshFetches_accepted (p : Props) (scr : Screen) (notifiMounted : Bool)
    (s : TableState) (row : Row) (outcome : Except Rejection Unit) :
    refreshFetches p s (handleDelete scr notifiMounted row .accepted outcome).1 =
      ({ s with loading := true }, [fetchEndpoint p s]) := by
  rw [handleDelete_accepted_trace]
  cases notifiMounted <;> rfl

theorem refreshFetches_declined (p : Props) (scr : Screen) (notifiMounted : Bool)
    (s : TableState) (row : Row) (outcome : Except Rejection Unit) :
    refreshFetches p s (handleDelete scr notifiMounted row .declined outcome).1 = (s, []) :=
  rfl

/-- C25: for every row whose delete is confirmed and whose DELETE call succeeds, the table
issues exactly two fetches: the first through the screen's `datatable.current.refresh()`,
the second through its own `deleteAction` once `handleDelete` has resolved. -/
theorem deleteClick_two_fetches (p : Props) (scr : Screen) (notifiMounted : Bool)
    (s : TableState) (row : Row) :
    (deleteClick p scr notifiMounted s row .accepted (.ok ())).2 =
      [fetchEndpoint p s, fetchEndpoint p s] ∧
    (deleteClick p scr notifiMounted s row .accepted (.ok ())).2.length = 2 ∧
    (refreshFetches p s (handleDelete scr notifiMounted row .accepted (.ok ())).1).2 =
      [fetchEndpoint p s] ∧
    (handleDelete scr notifiMounted row .accepted (.ok ())).2 = .resolved ∧
    (deleteAction p s
      (refreshFetches p s (handleDelete scr notifiMounted row .accepted (.ok ())).1).1
      (handleDelete scr notifiMounted row .accepted (.ok ())).2).2 = [fetchEndpoint p s] := by
  have h := refreshFetches_accepted p scr notifiMounted s row (.ok ())
  have hc : deleteClick p scr notifiMounted s row .accepted (.ok ()) =
      ({ s with loading := true }, [fetchEndpoint p s, fetchEndpoint p s]) := by
    simp only [deleteClick, h]
    rfl
  refine ⟨by rw [hc], by rw [hc]; rfl, by rw [h], rfl, by rw [h]; rfl⟩

/-- C26: the promise `handleDelete` returns resolves exactly when the confirmation was
accepted and the DELETE call succeeded; when the confirmation is declined or the DELETE
call fails it stays pending, neither resolved nor rejected, and the table's `deleteAction`
does not reach its re-fetch. -/
theorem handleDelete_promise (p : Props) (scr : Screen) (notifiMounted : Bool)
    (clicked current : TableState) (row : Row) (answer : ConfirmOutcome)
    (outcome : Except Rejection Unit) :
    ((handleDelete scr notifiMounted row answer outcome).2 = .resolved ↔
      answer = .accepted ∧ outcome = .ok ()) ∧
    (¬ (answer = .accepted ∧ outcome = .ok ()) →
      (handleDelete scr notifiMounted row answer outcome).2 = .pending ∧
      (deleteAction p clicked current
        (handleDelete scr notifiMounted row answer outcome).2).2 = []) ∧
    (handleDelete scr notifiMounted row answer outcome).2 ≠ .rejected := by
  cases answer <;> cases outcome <;> simp [handleDelete, handleDeletePromise, deleteAction]

theorem handleDelete_promise_witness :
    (handleDelete helpersScreen true sampleRow .accepted (.error (.error networkError))).2
      = .pending ∧
    (deleteAction functionsProps initialState initialState
      (handleDelete helpersScreen true sampleRow .accepted
        (.error (.error networkError))).2).2 = [] :=
  (handleDelete_promise functionsProps helpersScreen true initialState initialState sampleRow
    .accepted (.error (.error networkError))).2.1 (by simp)

/-! ## Totality of the application's error handler -/

/-- C28 (the code departs from the claim): for a server error response whose body is
truthy but has no `response` property, an argument the response interceptor does pass to
the registered handler, the application's handler throws a `TypeError` and produces no
payload; it produces one for every message string and for every response without a
truthy body. -/
theorem globalErrorHandler_not_total :
    globalErrorHandler (.response plainErrorResponse) =
      .error "TypeError: Cannot read properties of undefined (reading 'message')" ∧
    allHandlerCalls
      (responseErrorInterceptor true (setGlobalErrorHandler (some 7) ApiModule.init)
        plainServerError).1 = [(7, .response plainErrorResponse)] ∧
    (∀ (r : Response) (body : ErrorBody), r.data = some body → body.response = none →
      ∀ payload : ErrorPayload, globalErrorHandler (.response r) ≠ .ok payload) ∧
    (∀ m : String, ∃ payload : ErrorPayload, globalErrorHandler (.message m) = .ok payload) ∧
    (∀ r : Response, r.data = none →
      ∃ payload : ErrorPayload, globalErrorHandler (.response r) = .ok payload) := by
  refine ⟨rfl, by decide, fun r body hd hb payload => ?_, fun m => ⟨_, rfl⟩, fun r hd => ?_⟩
  · simp [globalErrorHandler, handlerArgData, hd, hb]
  · simp [globalErrorHandler, handlerArgData, hd]

theorem globalErrorHandler_not_total_witness :
    ∀ payload : ErrorPayload,
      globalErrorHandler (.response plainErrorResponse) ≠ .ok payload :=
  globalErrorHandler_not_total.2.2.1 plainErrorResponse { response := none } rfl rfl

/-! ## Routing -/

theorem render_protectedRoute (user : Option User) (children : Element) :
    (Element.protectedRoute user children).render = children.render := by
  rw [Element.render]
  simp [ProtectedRoute]

/-- C29: `ProtectedRoute` does not depend on the user: for every value of `user`, `null`
included, it returns its children unchanged; so the route `getRoutes` builds for an entry
that is not whitelisted shows the same component as the route it builds for the same
entry whitelisted, whoever the user is. -/
theorem protectedRoute_ignores_user (user : Option User) (children : Element)
    (key path : String) :
    ProtectedRoute user children = children ∧
    ProtectedRoute none children = children ∧
    getRoute user (.item key (some path) false children) =
      .route path (.protectedRoute user children) key ∧
    getRoute user (.item key (some path) true children) = .route path children key ∧
    (getRoute user (.item key (some path) false children)).shown =
      (getRoute user (.item key (some path) true children)).shown ∧
    (getRoute none (.item key (some path) false children)).shown = some children.render := by
  have h1 : ∀ u : Option User, getRoute u (.item key (some path) false children) =
      .route path (.protectedRoute u children) key := by
    intro u; simp [getRoute]
  have h2 : getRoute user (.item key (some path) true children) = .route path children key := by
    simp [getRoute]
  refine ⟨by simp [ProtectedRoute], by simp [ProtectedRoute], h1 user, h2, ?_, ?_⟩
  · rw [h1 user, h2]
    simp [Rendered.shown, render_protectedRoute]
  · rw [h1 none]
    simp [Rendered.shown, render_protectedRoute]

end BEASRE
